import Mathlib

/-!
# Verification of the FEWS NET Haiti price-data sync module

Shallow embedding of the incremental synchronization and upsert
reconciliation logic of `FEWS_Price_data`:

* `database/fews_database.py` (class `FEWSDatabase`): the dimension
  lookups (`get_or_create_market` / `product` / `unit` / `source`), the
  fact-table upsert (`upsert_price_observation`), the row loop
  (`sync_dataframe`), import logging (`log_import`) and the watermark
  query (`get_last_sync_date`);
* `sync_fews_db.py` (`incremental_sync`): the watermark-bounded fetch
  window;
* `fewsnet_haiti_downloader.py` (`FEWSNETClient._make_request`): the
  retry loop around the HTTP GET.

Modelling conventions:

* Python / pandas cell values are `Value`; `Value.nanV` stands for both
  Python `None` and pandas `NaN` (both satisfy `pd.isna`).
* A DataFrame row converted by `row.to_dict()` is an association list
  `Row`; an absent pair models a column absent from the DataFrame, while
  a present pair with `Value.nanV` models a present-but-null cell.
* SQL parameter comparison (`WHERE col = ?`) uses `sqlEq`, which is
  structural equality except that `NULL` (`nanV`) never compares equal
  to anything, `NULL = NULL` included, as in SQL three-valued logic.
* DuckDB tables are Lean lists in insertion order; `fetchone()` after a
  `SELECT` is `List.find?`; `INSERT` appends; auto-generated surrogate
  ids come from per-table counters in `DB`.
* Calendar dates are modelled as day ordinals (`Nat`), with 2005-01-01
  as day 0.  `strptime`/`strftime` round-trips are the identity, adding
  `timedelta(days=1)` is `+ 1`, and the script's string comparison of
  ISO `YYYY-MM-DD` dates coincides with `≤` on day ordinals because the
  fixed-width ISO format is lexicographically monotone.
* Wall-clock-only columns (`imported_at`, `import_date`) are not stored;
  `ORDER BY import_date DESC` on `import_log` is modelled as reverse
  insertion order (rows are inserted at strictly increasing timestamps).
-/

set_option autoImplicit false

namespace FEWS

/-- A Python / pandas cell value.  `nanV` stands for `None` and `NaN`
(the values for which `pd.isna` is true); numbers, strings and booleans
are carried structurally. -/
inductive Value where
  | nanV
  | intV (n : Int)
  | strV (s : String)
  | boolV (b : Bool)
deriving DecidableEq

/-- `pd.isna`: true exactly on `None` / `NaN`. -/
def pdIsna : Value → Bool
  | Value.nanV => true
  | _ => false

/-- Python truthiness of a cell value (`if api_modified and ...`). -/
def pyTruthy : Value → Bool
  | Value.nanV => false
  | Value.intV n => decide (n ≠ 0)
  | Value.strV s => decide (s ≠ "")
  | Value.boolV b => b

/-- The numeric value of a decimal digit character, if it is one. -/
def digitVal (c : Char) : Option Nat :=
  if 48 ≤ c.toNat ∧ c.toNat ≤ 57 then some (c.toNat - 48) else none

/-- Fold a digit string into a number; `none` when empty or when a
non-digit appears. -/
def digitsVal : List Char → Option Nat → Option Nat
  | [], acc => acc
  | c :: cs, acc =>
    match digitVal c, acc with
    | some d, some a => digitsVal cs (some (a * 10 + d))
    | some d, none => digitsVal cs (some d)
    | none, _ => none

/-- Integer parsing of a string, modelling Python `int(str)` on its
sign-and-digits core: an optional leading minus followed by at least one
digit; anything else fails. -/
def strToInt? (s : String) : Option Int :=
  match s.data with
  | '-' :: cs => (digitsVal cs none).map (fun n => -(n : Int))
  | cs => (digitsVal cs none).map (fun n => (n : Int))

/-- Python `int(x)`: succeeds on ints and bools and on strings that
parse as an integer; raises (`Except.error`) otherwise. -/
def pyInt : Value → Except String Int
  | Value.intV n => Except.ok n
  | Value.boolV b => Except.ok (if b then 1 else 0)
  | Value.strV s =>
      match strToInt? s with
      | some n => Except.ok n
      | none => Except.error "ValueError: invalid literal for int()"
  | Value.nanV => Except.error "TypeError: int() argument is None"

/-- SQL parameter equality: `NULL` never compares equal (`WHERE col = ?`
with a `NULL` operand selects nothing). -/
def sqlEq : Value → Value → Bool
  | Value.nanV, _ => false
  | _, Value.nanV => false
  | a, b => decide (a = b)

/-- A DataFrame row after `row.to_dict()`: an association list from
column name to cell value. -/
def Row : Type := List (String × Value)

/-- Python `row.get(k)`: the value under `k`, or `None` (`nanV`) when
the key is absent. -/
def pyGet (r : Row) (k : String) : Value :=
  match List.find? (fun kv => decide (kv.1 = k)) r with
  | some kv => kv.2
  | none => Value.nanV

/-- Python `row.get(k, dflt)`: the value under `k`, or `dflt` when the
key is absent (a present `NaN` is returned, not defaulted). -/
def pyGetD (r : Row) (k : String) (dflt : Value) : Value :=
  match List.find? (fun kv => decide (kv.1 = k)) r with
  | some kv => kv.2
  | none => dflt

/-- External-library abstraction: `pd.to_datetime` is modelled as a
parser that succeeds and returns its argument unchanged; its result is
stored opaquely in `api_modified_at` and never inspected. -/
def pd_to_datetime (v : Value) : Option Value := some v

/-- The `api_modified` preprocessing in `upsert_price_observation`:
`if api_modified and not pd.isna(api_modified): try parse except None
else None`. -/
def parseModified (v : Value) : Value :=
  if pyTruthy v && !pdIsna v then
    match pd_to_datetime v with
    | some d => d
    | none => Value.nanV
  else Value.nanV

/-- A record of the `markets` dimension table. -/
structure Market where
  id : Nat
  fews_id : Value
  fnid : Value
  name : Value
  admin_1 : Value
  admin_2 : Value
  country_code : Value
  latitude : Value
  longitude : Value
deriving DecidableEq

/-- A record of the `products` dimension table. -/
structure Product where
  id : Nat
  name : Value
  cpcv2 : Value
  cpcv2_description : Value
  product_source : Value
  is_staple_food : Value
deriving DecidableEq

/-- A record of the `units` dimension table. -/
structure UnitRecord where
  id : Nat
  name : Value
  unit_type : Value
  common_unit : Value
deriving DecidableEq

/-- A record of the `data_sources` dimension table (the FEWS id is
stored after `int()` conversion). -/
structure DataSource where
  id : Nat
  fews_id : Int
  name : Value
  document_name : Value
deriving DecidableEq

/-- A record of the `price_observations` fact table (the wall-clock
`imported_at` column is not modelled). -/
structure PriceObservation where
  id : Nat
  market_id : Nat
  product_id : Nat
  unit_id : Nat
  source_id : Option Nat
  period_date : Value
  start_date : Value
  price_type : Value
  currency : Value
  value : Value
  exchange_rate : Value
  common_unit_price : Value
  common_currency_price : Value
  collection_status : Value
  fews_dataseries_id : Value
  api_modified_at : Value
deriving DecidableEq

/-- A record of the `import_log` table (`import_date` is represented by
list position: later entries were inserted later). -/
structure ImportLogEntry where
  records_fetched : Nat
  records_inserted : Nat
  records_updated : Nat
  records_skipped : Nat
  date_range_start : Option Nat
  date_range_end : Option Nat
  status : String
  error_message : Option String
deriving DecidableEq

/-- The database state: the six tables in insertion order plus the
per-table surrogate-id sequences. -/
structure DB where
  markets : List Market
  products : List Product
  units : List UnitRecord
  data_sources : List DataSource
  price_observations : List PriceObservation
  import_log : List ImportLogEntry
  next_market_id : Nat
  next_product_id : Nat
  next_unit_id : Nat
  next_source_id : Nat
  next_obs_id : Nat
deriving DecidableEq

/-- A freshly initialized database (`create_tables` on a new file). -/
def emptyDB : DB :=
  { markets := [], products := [], units := [], data_sources := []
    price_observations := [], import_log := []
    next_market_id := 1, next_product_id := 1, next_unit_id := 1
    next_source_id := 1, next_obs_id := 1 }

/-- The `markets` lookup predicate: `WHERE fews_id = ?` with parameter
`row.get("market_id")`. -/
def marketPred (row : Row) (m : Market) : Bool :=
  sqlEq m.fews_id (pyGet row "market_id")

/-- The record built by the `INSERT INTO markets` statement. -/
def newMarket (db : DB) (row : Row) : Market :=
  { id := db.next_market_id
    fews_id := pyGet row "market_id"
    fnid := pyGet row "fnid"
    name := pyGet row "market"
    admin_1 := pyGet row "admin_1"
    admin_2 := pyGet row "admin_2"
    country_code := pyGetD row "country_code" (Value.strV "HT")
    latitude := pyGet row "latitude"
    longitude := pyGet row "longitude" }

/-- `FEWSDatabase.get_or_create_market`: select by `fews_id`; if found
return its id, else insert and re-select.  The re-select can come back
empty (a `NULL` key never matches), in which case the Python
`result[0]` raises - modelled as `Except.error`. -/
def get_or_create_market (db : DB) (row : Row) : DB × Except String Nat :=
  match List.find? (marketPred row) db.markets with
  | some m => (db, Except.ok m.id)
  | none =>
    let db' := { db with
      markets := db.markets ++ [newMarket db row]
      next_market_id := db.next_market_id + 1 }
    match List.find? (marketPred row) db'.markets with
    | some m => (db', Except.ok m.id)
    | none => (db', Except.error "TypeError: NoneType is not subscriptable")

/-- The `products` lookup predicate:
`WHERE name = ? AND product_source = ?`. -/
def productPred (row : Row) (p : Product) : Bool :=
  sqlEq p.name (pyGet row "product") &&
    sqlEq p.product_source (pyGet row "product_source")

/-- The record built by the `INSERT INTO products` statement. -/
def newProduct (db : DB) (row : Row) : Product :=
  { id := db.next_product_id
    name := pyGet row "product"
    cpcv2 := pyGet row "cpcv2"
    cpcv2_description := pyGet row "cpcv2_description"
    product_source := pyGet row "product_source"
    is_staple_food := pyGetD row "is_staple_food" (Value.boolV false) }

/-- `FEWSDatabase.get_or_create_product`: select by
`(name, product_source)`; if found return its id, else insert and
re-select. -/
def get_or_create_product (db : DB) (row : Row) : DB × Except String Nat :=
  match List.find? (productPred row) db.products with
  | some p => (db, Except.ok p.id)
  | none =>
    let db' := { db with
      products := db.products ++ [newProduct db row]
      next_product_id := db.next_product_id + 1 }
    match List.find? (productPred row) db'.products with
    | some p => (db', Except.ok p.id)
    | none => (db', Except.error "TypeError: NoneType is not subscriptable")

/-- The `units` lookup predicate: `WHERE name = ?`. -/
def unitPred (row : Row) (u : UnitRecord) : Bool :=
  sqlEq u.name (pyGet row "unit")

/-- The record built by the `INSERT INTO units` statement. -/
def newUnit (db : DB) (row : Row) : UnitRecord :=
  { id := db.next_unit_id
    name := pyGet row "unit"
    unit_type := pyGet row "unit_type"
    common_unit := pyGet row "common_unit" }

/-- `FEWSDatabase.get_or_create_unit`: select by `name`; if found return
its id, else insert and re-select. -/
def get_or_create_unit (db : DB) (row : Row) : DB × Except String Nat :=
  match List.find? (unitPred row) db.units with
  | some u => (db, Except.ok u.id)
  | none =>
    let db' := { db with
      units := db.units ++ [newUnit db row]
      next_unit_id := db.next_unit_id + 1 }
    match List.find? (unitPred row) db'.units with
    | some u => (db', Except.ok u.id)
    | none => (db', Except.error "TypeError: NoneType is not subscriptable")

/-- The record built by the `INSERT INTO data_sources` statement. -/
def newSource (db : DB) (n : Int) (row : Row) : DataSource :=
  { id := db.next_source_id
    fews_id := n
    name := pyGet row "source_organization"
    document_name := pyGet row "source_document" }

/-- `FEWSDatabase.get_or_create_source`: `None` (no id) when
`datasourceorganization` is missing/NaN; otherwise `int()`-convert the
value (which can raise), then select by `fews_id`, inserting and
re-selecting when absent. -/
def get_or_create_source (db : DB) (row : Row) : DB × Except String (Option Nat) :=
  let fews_id := pyGet row "datasourceorganization"
  if pdIsna fews_id then (db, Except.ok none)
  else
    match pyInt fews_id with
    | Except.error e => (db, Except.error e)
    | Except.ok n =>
      match List.find? (fun s => decide (s.fews_id = n)) db.data_sources with
      | some s => (db, Except.ok (some s.id))
      | none =>
        let db' := { db with
          data_sources := db.data_sources ++ [newSource db n row]
          next_source_id := db.next_source_id + 1 }
        match List.find? (fun s => decide (s.fews_id = n)) db'.data_sources with
        | some s => (db', Except.ok (some s.id))
        | none => (db', Except.error "TypeError: NoneType is not subscriptable")

/-- The natural key of a price observation:
`(market_id, product_id, unit_id, period_date, price_type)`. -/
def natKey (o : PriceObservation) : Nat × Nat × Nat × Value × Value :=
  (o.market_id, o.product_id, o.unit_id, o.period_date, o.price_type)

/-- Natural-key comparison against resolved parameters, on key tuples
(`sqlEq` on the `NULL`-able columns). -/
def keyMatchK (mid pid uid : Nat) (pd pt : Value)
    (k : Nat × Nat × Nat × Value × Value) : Bool :=
  decide (k.1 = mid) && decide (k.2.1 = pid) && decide (k.2.2.1 = uid) &&
    sqlEq k.2.2.2.1 pd && sqlEq k.2.2.2.2 pt

/-- The fact-table lookup predicate of `upsert_price_observation`:
`WHERE market_id = ? AND product_id = ? AND unit_id = ?
AND period_date = ? AND price_type = ?`. -/
def obsMatches (mid pid uid : Nat) (pd pt : Value) (o : PriceObservation) : Bool :=
  keyMatchK mid pid uid pd pt (natKey o)

/-- `row.get("period_date")`. -/
def rowPd (row : Row) : Value := pyGet row "period_date"

/-- `row.get("price_type", "Retail")`. -/
def rowPt (row : Row) : Value := pyGetD row "price_type" (Value.strV "Retail")

/-- The `UPDATE price_observations SET ...` of the update branch: only
`value`, `exchange_rate`, `common_unit_price`, `common_currency_price`,
`collection_status` and `api_modified_at` change (plus the unmodelled
wall-clock `imported_at`); the key columns, `id` and `source_id` are
untouched. -/
def applyObsUpdate (row : Row) (am : Value) (o : PriceObservation) : PriceObservation :=
  { o with
    value := pyGet row "value"
    exchange_rate := pyGet row "exchange_rate"
    common_unit_price := pyGet row "common_unit_price"
    common_currency_price := pyGet row "common_currency_price"
    collection_status := pyGet row "collection_status"
    api_modified_at := am }

/-- The record built by the `INSERT INTO price_observations` statement. -/
def newObs (db : DB) (row : Row) (mid pid uid : Nat) (sid : Option Nat) : PriceObservation :=
  { id := db.next_obs_id
    market_id := mid
    product_id := pid
    unit_id := uid
    source_id := sid
    period_date := rowPd row
    start_date := pyGet row "start_date"
    price_type := rowPt row
    currency := pyGetD row "currency" (Value.strV "HTG")
    value := pyGet row "value"
    exchange_rate := pyGet row "exchange_rate"
    common_unit_price := pyGet row "common_unit_price"
    common_currency_price := pyGet row "common_currency_price"
    collection_status := pyGet row "collection_status"
    fews_dataseries_id := pyGet row "dataseries"
    api_modified_at := parseModified (pyGet row "modified") }

/-- `FEWSDatabase.upsert_price_observation`: look the natural key up;
when found, `UPDATE ... WHERE id = result[0]` in place and return
`false`; when absent, insert a new record and return `true`. -/
def upsert_price_observation (db : DB) (row : Row) (mid pid uid : Nat)
    (sid : Option Nat) : DB × Bool :=
  let pd := rowPd row
  let pt := rowPt row
  let am := parseModified (pyGet row "modified")
  match List.find? (obsMatches mid pid uid pd pt) db.price_observations with
  | some o =>
    ({ db with price_observations :=
        db.price_observations.map fun x =>
          if x.id = o.id then applyObsUpdate row am x else x },
     false)
  | none =>
    ({ db with
        price_observations := db.price_observations ++ [newObs db row mid pid uid sid]
        next_obs_id := db.next_obs_id + 1 },
     true)

/-- The body of `sync_dataframe`'s `try:` block for one row: resolve the
four dimensions (each can raise), then upsert the observation.  The
returned `Bool` is `upsert_price_observation`'s inserted flag; an
`Except.error` models the exception caught by the surrounding
`except Exception`.  Side effects already performed before the raise are
kept, as in Python. -/
def processRow (db : DB) (row : Row) : DB × Except String Bool :=
  match get_or_create_market db row with
  | (db1, Except.error e) => (db1, Except.error e)
  | (db1, Except.ok market_id) =>
    match get_or_create_product db1 row with
    | (db2, Except.error e) => (db2, Except.error e)
    | (db2, Except.ok product_id) =>
      match get_or_create_unit db2 row with
      | (db3, Except.error e) => (db3, Except.error e)
      | (db3, Except.ok unit_id) =>
        match get_or_create_source db3 row with
        | (db4, Except.error e) => (db4, Except.error e)
        | (db4, Except.ok source_id) =>
          let r := upsert_price_observation db4 row market_id product_id unit_id source_id
          (r.1, Except.ok r.2)

/-- The statistics dictionary of `sync_dataframe`. -/
structure SyncStats where
  inserted : Nat
  updated : Nat
  skipped : Nat
  errors : Nat
deriving DecidableEq

/-- The all-zero initial statistics. -/
def zeroStats : SyncStats := { inserted := 0, updated := 0, skipped := 0, errors := 0 }

/-- One iteration's statistics update: inserted / updated on success,
errors on a caught exception (`skipped` is never incremented). -/
def bumpStats (s : SyncStats) : Except String Bool → SyncStats
  | Except.ok true => { s with inserted := s.inserted + 1 }
  | Except.ok false => { s with updated := s.updated + 1 }
  | Except.error _ => { s with errors := s.errors + 1 }

/-- The `for idx, row in df.iterrows()` loop of `sync_dataframe`,
threading the database and the running statistics in row order. -/
def syncLoop (db : DB) (stats : SyncStats) : List Row → DB × SyncStats
  | [] => (db, stats)
  | row :: rest =>
    let r := processRow db row
    syncLoop r.1 (bumpStats stats r.2) rest

/-- `FEWSDatabase.sync_dataframe`: run the row loop from zero counters. -/
def sync_dataframe (db : DB) (rows : List Row) : DB × SyncStats :=
  syncLoop db zeroStats rows

/-- Dictionary lookup `stats.get(k, 0)` used by `log_import` (the Python
callers pass dictionaries with varying key sets). -/
def dictGetNat (d : List (String × Nat)) (k : String) : Nat :=
  match List.find? (fun kv => decide (kv.1 = k)) d with
  | some kv => kv.2
  | none => 0

/-- The full statistics dictionary passed to `log_import` after a sync. -/
def statsDict (s : SyncStats) : List (String × Nat) :=
  [("inserted", s.inserted), ("updated", s.updated),
   ("skipped", s.skipped), ("errors", s.errors)]

/-- `FEWSDatabase.log_import`: append a row to `import_log`. -/
def log_import (db : DB) (records_fetched : Nat) (stats : List (String × Nat))
    (start_date end_date : Option Nat) (status : String)
    (error_message : Option String) : DB :=
  { db with import_log := db.import_log ++
      [{ records_fetched := records_fetched
         records_inserted := dictGetNat stats "inserted"
         records_updated := dictGetNat stats "updated"
         records_skipped := dictGetNat stats "skipped"
         date_range_start := start_date
         date_range_end := end_date
         status := status
         error_message := error_message }] }

/-- `FEWSDatabase.get_last_sync_date`: `SELECT date_range_end FROM
import_log WHERE status = 'success' ORDER BY import_date DESC LIMIT 1`,
then `if result and result[0]` - a `NULL` `date_range_end` on the most
recent success yields `None`. -/
def get_last_sync_date (db : DB) : Option Nat :=
  (List.find? (fun e => decide (e.status = "success")) db.import_log.reverse).bind
    ImportLogEntry.date_range_end

/-- The start of the incremental fetch window (`incremental_sync`): the
day after the watermark, or 2005-01-01 (day 0) when no successful sync
is recorded. -/
def inc_sync_start (db : DB) : Nat :=
  match get_last_sync_date db with
  | some d => d + 1
  | none => 0

/-- How a run of `incremental_sync` ended. -/
inductive SyncOutcome where
  | upToDate
  | connectionFailed
  | fetchFailed (msg : String)
  | emptyData
  | synced (stats : SyncStats)
deriving DecidableEq

/-- `incremental_sync` from `sync_fews_db.py`.  `today` is
`datetime.now()` as a day ordinal, `connection_ok` the outcome of
`client.test_connection()`, and `api s e` the outcome of
`client.get_market_prices(start_date = s, end_date = e)` (an
`Except.error` models a raised request exception).  The third component
of the result is the window actually requested from the API, `none`
when no fetch was attempted. -/
def incremental_sync (db : DB) (today : Nat) (connection_ok : Bool)
    (api : Nat → Nat → Except String (List Row)) :
    DB × SyncOutcome × Option (Nat × Nat) :=
  let start_date := inc_sync_start db
  let end_date := today
  if start_date > end_date then (db, SyncOutcome.upToDate, none)
  else if !connection_ok then (db, SyncOutcome.connectionFailed, none)
  else
    match api start_date end_date with
    | Except.error e =>
      (log_import db 0 [] (some start_date) (some end_date) "failed" (some e),
       SyncOutcome.fetchFailed e, some (start_date, end_date))
    | Except.ok rows =>
      if rows.isEmpty then
        (log_import db 0 [("inserted", 0), ("updated", 0)]
           (some start_date) (some end_date) "success" none,
         SyncOutcome.emptyData, some (start_date, end_date))
      else
        let r := sync_dataframe db rows
        (log_import r.1 rows.length (statsDict r.2)
           (some start_date) (some end_date) "success" none,
         SyncOutcome.synced r.2, some (start_date, end_date))

/-- `MAX_RETRIES` from `fewsnet_haiti_downloader.py`. -/
def MAX_RETRIES : Nat := 3

/-- The outcome of one `session.get` call inside `_make_request`:
a successful response (already parsed), a `requests.exceptions.Timeout`,
or another `requests.exceptions.RequestException`. -/
inductive AttemptResult where
  | success (body : String)
  | timeout
  | requestError
deriving DecidableEq

/-- Whether an attempt raised. -/
def isFail : AttemptResult → Bool
  | AttemptResult.success _ => false
  | _ => true

/-- The hand-written sleep before the next attempt: `(attempt + 1) * 10`
seconds after a timeout, `(attempt + 1) * 5` after another request
exception. -/
def failWait : AttemptResult → Nat → Nat
  | AttemptResult.timeout, attempt => (attempt + 1) * 10
  | AttemptResult.requestError, attempt => (attempt + 1) * 5
  | AttemptResult.success _, _ => 0

/-- The exception re-raised when the final attempt fails. -/
def excMessage : AttemptResult → String
  | AttemptResult.timeout => "Timeout"
  | AttemptResult.requestError => "RequestException"
  | AttemptResult.success _ => ""

/-- The `for attempt in range(MAX_RETRIES)` loop of
`FEWSNETClient._make_request`, starting at iteration `attempt` with
`fuel` iterations left.  `f k` is the outcome of the `session.get` of
iteration `k`.  Returns the result (`ok` body or re-raised exception),
the list of sleeps performed between attempts, and the number of
attempts made. -/
def makeRequestFrom (f : Nat → AttemptResult) (attempt : Nat) :
    Nat → Except String String × List Nat × Nat
  | 0 => (Except.error "", [], 0)
  | fuel + 1 =>
    match f attempt with
    | AttemptResult.success body => (Except.ok body, [], 1)
    | r =>
      if attempt < MAX_RETRIES - 1 then
        let rest := makeRequestFrom f (attempt + 1) fuel
        (rest.1, failWait r attempt :: rest.2.1, rest.2.2 + 1)
      else
        (Except.error (excMessage r), [], 1)

/-- `FEWSNETClient._make_request` (request construction aside): the
retry loop over at most `MAX_RETRIES` attempts of the HTTP GET. -/
def make_request (f : Nat → AttemptResult) : Except String String × List Nat × Nat :=
  makeRequestFrom f 0 MAX_RETRIES

/-- The `urllib3.util.retry.Retry` configuration mounted on the session
in `FEWSNETClient.__init__`. -/
structure RetryConfig where
  total : Nat
  backoff_factor : Nat
  status_forcelist : List Nat
deriving DecidableEq

/-- `Retry(total=MAX_RETRIES, backoff_factor=2,
status_forcelist=[429, 500, 502, 503, 504])`. -/
def session_retry_config : RetryConfig :=
  { total := MAX_RETRIES, backoff_factor := 2
    status_forcelist := [429, 500, 502, 503, 504] }

/-- The library-provided backoff schedule of `urllib3` `Retry`: the wait
before retry `k` is `backoff_factor * 2 ^ k` ("Wait 2, 4, 8 seconds
between retries" in the source's own comment). -/
def library_backoff (cfg : RetryConfig) (k : Nat) : Nat :=
  cfg.backoff_factor * 2 ^ k

end FEWS

namespace FEWS

/-! ## List helper lemmas -/

theorem find?_append_some {α : Type} {p : α → Bool} {l1 : List α} (l2 : List α)
    {x : α} (h : List.find? p l1 = some x) : List.find? p (l1 ++ l2) = some x := by
  induction l1 with
  | nil => simp [List.find?] at h
  | cons a t ih =>
    by_cases hp : p a
    · rw [List.find?_cons_of_pos _ hp] at h
      rw [List.cons_append, List.find?_cons_of_pos _ hp]
      exact h
    · rw [List.find?_cons_of_neg _ hp] at h
      rw [List.cons_append, List.find?_cons_of_neg _ hp]
      exact ih h

theorem find?_append_none {α : Type} {p : α → Bool} {l1 : List α} (l2 : List α)
    (h : List.find? p l1 = none) : List.find? p (l1 ++ l2) = List.find? p l2 := by
  induction l1 with
  | nil => simp
  | cons a t ih =>
    by_cases hp : p a
    · rw [List.find?_cons_of_pos _ hp] at h
      exact absurd h (by simp)
    · rw [List.find?_cons_of_neg _ hp] at h
      rw [List.cons_append, List.find?_cons_of_neg _ hp]
      exact ih h

theorem find?_eq_filter_head {α : Type} (p : α → Bool) (l : List α) :
    List.find? p l = (List.filter p l).head? := by
  induction l with
  | nil => rfl
  | cons a t ih =>
    by_cases hp : p a
    · rw [List.find?_cons_of_pos _ hp, List.filter_cons_of_pos hp, List.head?_cons]
    · rw [List.find?_cons_of_neg _ hp, List.filter_cons_of_neg hp, ih]

theorem reverse_find?_eq_filter_getLast {α : Type} (p : α → Bool) (l : List α) :
    List.find? p l.reverse = (List.filter p l).getLast? := by
  rw [find?_eq_filter_head, List.filter_reverse, List.head?_reverse]

theorem find?_comp_isSome_iff {α β : Type} (p : β → Bool) (f : α → β) (l : List α) :
    ((List.find? (fun x => p (f x)) l).isSome = true) ↔ ((l.map f).any p = true) := by
  rw [List.find?_isSome, List.any_eq_true]
  constructor
  · rintro ⟨x, hx, hpx⟩
    exact ⟨f x, List.mem_map_of_mem f hx, hpx⟩
  · rintro ⟨y, hy, hpy⟩
    rcases List.mem_map.mp hy with ⟨x, hx, rfl⟩
    exact ⟨x, hx, hpy⟩

/-! ## Value lemmas -/

theorem sqlEq_self {v : Value} (h : pdIsna v = false) : sqlEq v v = true := by
  cases v <;> simp_all [sqlEq, pdIsna]

theorem sqlEq_eq_decide (x : Value) {y : Value} (hy : pdIsna y = false) :
    sqlEq x y = decide (x = y) := by
  cases x <;> cases y <;> simp_all [sqlEq, pdIsna]

/-! ## Characterization of the dimension lookups -/

theorem gocm_found {db : DB} {row : Row} {m : Market}
    (h : List.find? (marketPred row) db.markets = some m) :
    get_or_create_market db row = (db, Except.ok m.id) := by
  simp [get_or_create_market, h]

theorem gocm_insert_found {db : DB} {row : Row}
    (h : List.find? (marketPred row) db.markets = none)
    (hm : marketPred row (newMarket db row) = true) :
    get_or_create_market db row =
      ({ db with markets := db.markets ++ [newMarket db row]
                 next_market_id := db.next_market_id + 1 },
       Except.ok db.next_market_id) := by
  simp only [get_or_create_market, h]
  rw [find?_append_none _ h, List.find?_cons_of_pos _ hm]
  rfl

theorem gocm_insert_null {db : DB} {row : Row}
    (h : List.find? (marketPred row) db.markets = none)
    (hm : marketPred row (newMarket db row) = false) :
    get_or_create_market db row =
      ({ db with markets := db.markets ++ [newMarket db row]
                 next_market_id := db.next_market_id + 1 },
       Except.error "TypeError: NoneType is not subscriptable") := by
  simp only [get_or_create_market, h]
  rw [find?_append_none _ h, List.find?_cons_of_neg _ (by simp [hm]),
    List.find?_nil]

theorem gocp_found {db : DB} {row : Row} {p : Product}
    (h : List.find? (productPred row) db.products = some p) :
    get_or_create_product db row = (db, Except.ok p.id) := by
  simp [get_or_create_product, h]

theorem gocp_insert_found {db : DB} {row : Row}
    (h : List.find? (productPred row) db.products = none)
    (hp : productPred row (newProduct db row) = true) :
    get_or_create_product db row =
      ({ db with products := db.products ++ [newProduct db row]
                 next_product_id := db.next_product_id + 1 },
       Except.ok db.next_product_id) := by
  simp only [get_or_create_product, h]
  rw [find?_append_none _ h, List.find?_cons_of_pos _ hp]
  rfl

theorem gocp_insert_null {db : DB} {row : Row}
    (h : List.find? (productPred row) db.products = none)
    (hp : productPred row (newProduct db row) = false) :
    get_or_create_product db row =
      ({ db with products := db.products ++ [newProduct db row]
                 next_product_id := db.next_product_id + 1 },
       Except.error "TypeError: NoneType is not subscriptable") := by
  simp only [get_or_create_product, h]
  rw [find?_append_none _ h, List.find?_cons_of_neg _ (by simp [hp]),
    List.find?_nil]

theorem gocu_found {db : DB} {row : Row} {u : UnitRecord}
    (h : List.find? (unitPred row) db.units = some u) :
    get_or_create_unit db row = (db, Except.ok u.id) := by
  simp [get_or_create_unit, h]

theorem gocu_insert_found {db : DB} {row : Row}
    (h : List.find? (unitPred row) db.units = none)
    (hu : unitPred row (newUnit db row) = true) :
    get_or_create_unit db row =
      ({ db with units := db.units ++ [newUnit db row]
                 next_unit_id := db.next_unit_id + 1 },
       Except.ok db.next_unit_id) := by
  simp only [get_or_create_unit, h]
  rw [find?_append_none _ h, List.find?_cons_of_pos _ hu]
  rfl

theorem gocu_insert_null {db : DB} {row : Row}
    (h : List.find? (unitPred row) db.units = none)
    (hu : unitPred row (newUnit db row) = false) :
    get_or_create_unit db row =
      ({ db with units := db.units ++ [newUnit db row]
                 next_unit_id := db.next_unit_id + 1 },
       Except.error "TypeError: NoneType is not subscriptable") := by
  simp only [get_or_create_unit, h]
  rw [find?_append_none _ h, List.find?_cons_of_neg _ (by simp [hu]),
    List.find?_nil]

theorem gocs_isna {db : DB} {row : Row}
    (h : pdIsna (pyGet row "datasourceorganization") = true) :
    get_or_create_source db row = (db, Except.ok none) := by
  simp [get_or_create_source, h]

theorem gocs_int_error {db : DB} {row : Row} {e : String}
    (h : pdIsna (pyGet row "datasourceorganization") = false)
    (he : pyInt (pyGet row "datasourceorganization") = Except.error e) :
    get_or_create_source db row = (db, Except.error e) := by
  simp [get_or_create_source, h, he]

theorem gocs_found {db : DB} {row : Row} {n : Int} {s : DataSource}
    (h : pdIsna (pyGet row "datasourceorganization") = false)
    (hn : pyInt (pyGet row "datasourceorganization") = Except.ok n)
    (hs : List.find? (fun s => decide (s.fews_id = n)) db.data_sources = some s) :
    get_or_create_source db row = (db, Except.ok (some s.id)) := by
  simp [get_or_create_source, h, hn, hs]

theorem gocs_insert {db : DB} {row : Row} {n : Int}
    (h : pdIsna (pyGet row "datasourceorganization") = false)
    (hn : pyInt (pyGet row "datasourceorganization") = Except.ok n)
    (hs : List.find? (fun s => decide (s.fews_id = n)) db.data_sources = none) :
    get_or_create_source db row =
      ({ db with data_sources := db.data_sources ++ [newSource db n row]
                 next_source_id := db.next_source_id + 1 },
       Except.ok (some db.next_source_id)) := by
  simp only [get_or_create_source, h, hn]
  rw [if_neg (by simp [h])]
  simp only [hs]
  rw [find?_append_none _ hs, List.find?_cons_of_pos _ (by simp [newSource])]
  rfl

end FEWS

namespace FEWS

/-! ## Characterization of the upsert -/

theorem upsert_update {db : DB} {row : Row} {mid pid uid : Nat} {sid : Option Nat}
    {o : PriceObservation}
    (h : List.find? (obsMatches mid pid uid (rowPd row) (rowPt row))
           db.price_observations = some o) :
    upsert_price_observation db row mid pid uid sid =
      ({ db with price_observations := db.price_observations.map fun x =>
           if x.id = o.id then
             applyObsUpdate row (parseModified (pyGet row "modified")) x
           else x },
       false) := by
  simp [upsert_price_observation, h]

theorem upsert_insert {db : DB} {row : Row} {mid pid uid : Nat} {sid : Option Nat}
    (h : List.find? (obsMatches mid pid uid (rowPd row) (rowPt row))
           db.price_observations = none) :
    upsert_price_observation db row mid pid uid sid =
      ({ db with
           price_observations :=
             db.price_observations ++ [newObs db row mid pid uid sid]
           next_obs_id := db.next_obs_id + 1 },
       true) := by
  simp [upsert_price_observation, h]

theorem natKey_applyObsUpdate (row : Row) (am : Value) (o : PriceObservation) :
    natKey (applyObsUpdate row am o) = natKey o := rfl

theorem id_applyObsUpdate (row : Row) (am : Value) (o : PriceObservation) :
    (applyObsUpdate row am o).id = o.id := rfl

theorem natKey_map_update (l : List PriceObservation) (row : Row) (am : Value)
    (oid : Nat) :
    ((l.map fun x => if x.id = oid then applyObsUpdate row am x else x).map natKey)
      = l.map natKey := by
  rw [List.map_map]
  apply List.map_congr_left
  intro a _
  by_cases h : a.id = oid <;> simp [h, Function.comp, natKey_applyObsUpdate]

theorem id_map_update (l : List PriceObservation) (row : Row) (am : Value)
    (oid : Nat) :
    ((l.map fun x => if x.id = oid then applyObsUpdate row am x else x).map
        PriceObservation.id)
      = l.map PriceObservation.id := by
  rw [List.map_map]
  apply List.map_congr_left
  intro a _
  by_cases h : a.id = oid <;> simp [h, Function.comp, id_applyObsUpdate]

/-! ## Growth of the database under sync

`Extends db db'` says the dimension tables of `db'` are those of `db`
with records appended, and the fact table's natural keys are those of
`db` with keys appended - nothing is removed or re-keyed. -/

def Extends (db db' : DB) : Prop :=
  (∃ l, db'.markets = db.markets ++ l) ∧
  (∃ l, db'.products = db.products ++ l) ∧
  (∃ l, db'.units = db.units ++ l) ∧
  (∃ l, db'.data_sources = db.data_sources ++ l) ∧
  (∃ l, db'.price_observations.map natKey = db.price_observations.map natKey ++ l)

theorem Extends.rfl (db : DB) : Extends db db :=
  ⟨⟨[], by simp⟩, ⟨[], by simp⟩, ⟨[], by simp⟩, ⟨[], by simp⟩, ⟨[], by simp⟩⟩

theorem Extends.trans {a b c : DB} (h1 : Extends a b) (h2 : Extends b c) :
    Extends a c := by
  obtain ⟨⟨l1, e1⟩, ⟨l2, e2⟩, ⟨l3, e3⟩, ⟨l4, e4⟩, ⟨l5, e5⟩⟩ := h1
  obtain ⟨⟨m1, f1⟩, ⟨m2, f2⟩, ⟨m3, f3⟩, ⟨m4, f4⟩, ⟨m5, f5⟩⟩ := h2
  exact ⟨⟨l1 ++ m1, by rw [f1, e1, List.append_assoc]⟩,
         ⟨l2 ++ m2, by rw [f2, e2, List.append_assoc]⟩,
         ⟨l3 ++ m3, by rw [f3, e3, List.append_assoc]⟩,
         ⟨l4 ++ m4, by rw [f4, e4, List.append_assoc]⟩,
         ⟨l5 ++ m5, by rw [f5, e5, List.append_assoc]⟩⟩

theorem gocm_db_cases (db : DB) (row : Row) :
    (get_or_create_market db row).1 = db ∨
    (get_or_create_market db row).1 =
      { db with markets := db.markets ++ [newMarket db row]
                next_market_id := db.next_market_id + 1 } := by
  rcases hf : List.find? (marketPred row) db.markets with _ | m
  · by_cases hm : marketPred row (newMarket db row)
    · right; rw [gocm_insert_found hf hm]
    · right; rw [gocm_insert_null hf (by simpa using hm)]
  · left; rw [gocm_found hf]

theorem gocp_db_cases (db : DB) (row : Row) :
    (get_or_create_product db row).1 = db ∨
    (get_or_create_product db row).1 =
      { db with products := db.products ++ [newProduct db row]
                next_product_id := db.next_product_id + 1 } := by
  rcases hf : List.find? (productPred row) db.products with _ | p
  · by_cases hp : productPred row (newProduct db row)
    · right; rw [gocp_insert_found hf hp]
    · right; rw [gocp_insert_null hf (by simpa using hp)]
  · left; rw [gocp_found hf]

theorem gocu_db_cases (db : DB) (row : Row) :
    (get_or_create_unit db row).1 = db ∨
    (get_or_create_unit db row).1 =
      { db with units := db.units ++ [newUnit db row]
                next_unit_id := db.next_unit_id + 1 } := by
  rcases hf : List.find? (unitPred row) db.units with _ | u
  · by_cases hu : unitPred row (newUnit db row)
    · right; rw [gocu_insert_found hf hu]
    · right; rw [gocu_insert_null hf (by simpa using hu)]
  · left; rw [gocu_found hf]

theorem gocs_db_cases (db : DB) (row : Row) :
    (get_or_create_source db row).1 = db ∨
    ∃ n, (get_or_create_source db row).1 =
      { db with data_sources := db.data_sources ++ [newSource db n row]
                next_source_id := db.next_source_id + 1 } := by
  rcases hna : pdIsna (pyGet row "datasourceorganization") with _ | _
  · rcases hn : pyInt (pyGet row "datasourceorganization") with e | n
    · left; rw [gocs_int_error hna hn]
    · rcases hf : List.find? (fun s => decide (s.fews_id = n)) db.data_sources
        with _ | s
      · right; exact ⟨n, by rw [gocs_insert hna hn hf]⟩
      · left; rw [gocs_found hna hn hf]
  · left; rw [gocs_isna hna]

theorem upsert_db_cases (db : DB) (row : Row) (mid pid uid : Nat)
    (sid : Option Nat) :
    ((upsert_price_observation db row mid pid uid sid).1.price_observations.map
        natKey = db.price_observations.map natKey ∧
      (upsert_price_observation db row mid pid uid sid).2 = false) ∨
    ((upsert_price_observation db row mid pid uid sid).1.price_observations =
        db.price_observations ++ [newObs db row mid pid uid sid] ∧
      (upsert_price_observation db row mid pid uid sid).2 = true) := by
  rcases hf : List.find? (obsMatches mid pid uid (rowPd row) (rowPt row))
      db.price_observations with _ | o
  · right; rw [upsert_insert hf]; exact ⟨rfl, rfl⟩
  · left; rw [upsert_update hf]; exact ⟨natKey_map_update _ _ _ _, rfl⟩

theorem upsert_frame (db : DB) (row : Row) (mid pid uid : Nat) (sid : Option Nat) :
    (upsert_price_observation db row mid pid uid sid).1.markets = db.markets ∧
    (upsert_price_observation db row mid pid uid sid).1.products = db.products ∧
    (upsert_price_observation db row mid pid uid sid).1.units = db.units ∧
    (upsert_price_observation db row mid pid uid sid).1.data_sources
      = db.data_sources ∧
    (upsert_price_observation db row mid pid uid sid).1.import_log
      = db.import_log := by
  rcases hf : List.find? (obsMatches mid pid uid (rowPd row) (rowPt row))
      db.price_observations with _ | o
  · rw [upsert_insert hf]; exact ⟨rfl, rfl, rfl, rfl, rfl⟩
  · rw [upsert_update hf]; exact ⟨rfl, rfl, rfl, rfl, rfl⟩

theorem upsert_extends (db : DB) (row : Row) (mid pid uid : Nat)
    (sid : Option Nat) :
    Extends db (upsert_price_observation db row mid pid uid sid).1 := by
  obtain ⟨h1, h2, h3, h4, h5⟩ := upsert_frame db row mid pid uid sid
  rcases upsert_db_cases db row mid pid uid sid with ⟨hk, _⟩ | ⟨hk, _⟩
  · exact ⟨⟨[], by simp [h1]⟩, ⟨[], by simp [h2]⟩, ⟨[], by simp [h3]⟩,
      ⟨[], by simp [h4]⟩, ⟨[], by simp [hk]⟩⟩
  · exact ⟨⟨[], by simp [h1]⟩, ⟨[], by simp [h2]⟩, ⟨[], by simp [h3]⟩,
      ⟨[], by simp [h4]⟩,
      ⟨[newObs db row mid pid uid sid].map natKey, by rw [hk, List.map_append]⟩⟩

theorem gocm_step (db : DB) (row : Row) :
    Extends db (get_or_create_market db row).1 ∧
    (get_or_create_market db row).1.products = db.products ∧
    (get_or_create_market db row).1.units = db.units ∧
    (get_or_create_market db row).1.data_sources = db.data_sources ∧
    (get_or_create_market db row).1.price_observations = db.price_observations ∧
    (get_or_create_market db row).1.import_log = db.import_log := by
  rcases gocm_db_cases db row with h | h <;> rw [h]
  · exact ⟨Extends.rfl db, rfl, rfl, rfl, rfl, rfl⟩
  · exact ⟨⟨⟨[newMarket db row], rfl⟩, ⟨[], by simp⟩, ⟨[], by simp⟩,
      ⟨[], by simp⟩, ⟨[], by simp⟩⟩, rfl, rfl, rfl, rfl, rfl⟩

theorem gocp_step (db : DB) (row : Row) :
    Extends db (get_or_create_product db row).1 ∧
    (get_or_create_product db row).1.markets = db.markets ∧
    (get_or_create_product db row).1.units = db.units ∧
    (get_or_create_product db row).1.data_sources = db.data_sources ∧
    (get_or_create_product db row).1.price_observations = db.price_observations ∧
    (get_or_create_product db row).1.import_log = db.import_log := by
  rcases gocp_db_cases db row with h | h <;> rw [h]
  · exact ⟨Extends.rfl db, rfl, rfl, rfl, rfl, rfl⟩
  · exact ⟨⟨⟨[], by simp⟩, ⟨[newProduct db row], rfl⟩, ⟨[], by simp⟩,
      ⟨[], by simp⟩, ⟨[], by simp⟩⟩, rfl, rfl, rfl, rfl, rfl⟩

theorem gocu_step (db : DB) (row : Row) :
    Extends db (get_or_create_unit db row).1 ∧
    (get_or_create_unit db row).1.markets = db.markets ∧
    (get_or_create_unit db row).1.products = db.products ∧
    (get_or_create_unit db row).1.data_sources = db.data_sources ∧
    (get_or_create_unit db row).1.price_observations = db.price_observations ∧
    (get_or_create_unit db row).1.import_log = db.import_log := by
  rcases gocu_db_cases db row with h | h <;> rw [h]
  · exact ⟨Extends.rfl db, rfl, rfl, rfl, rfl, rfl⟩
  · exact ⟨⟨⟨[], by simp⟩, ⟨[], by simp⟩, ⟨[newUnit db row], rfl⟩,
      ⟨[], by simp⟩, ⟨[], by simp⟩⟩, rfl, rfl, rfl, rfl, rfl⟩

theorem gocs_step (db : DB) (row : Row) :
    Extends db (get_or_create_source db row).1 ∧
    (get_or_create_source db row).1.markets = db.markets ∧
    (get_or_create_source db row).1.products = db.products ∧
    (get_or_create_source db row).1.units = db.units ∧
    (get_or_create_source db row).1.price_observations = db.price_observations ∧
    (get_or_create_source db row).1.import_log = db.import_log := by
  rcases gocs_db_cases db row with h | ⟨n, h⟩ <;> rw [h]
  · exact ⟨Extends.rfl db, rfl, rfl, rfl, rfl, rfl⟩
  · exact ⟨⟨⟨[], by simp⟩, ⟨[], by simp⟩, ⟨[], by simp⟩,
      ⟨[newSource db n row], rfl⟩, ⟨[], by simp⟩⟩, rfl, rfl, rfl, rfl, rfl⟩

theorem processRow_shape (db : DB) (row : Row) :
    Extends db (processRow db row).1 ∧
    (processRow db row).1.import_log = db.import_log := by
  rcases h1 : get_or_create_market db row with ⟨db1, r1⟩
  have s1 := gocm_step db row
  simp only [h1] at s1
  rcases r1 with e | mid
  · simp only [processRow, h1]
    exact ⟨s1.1, s1.2.2.2.2.2⟩
  · rcases h2 : get_or_create_product db1 row with ⟨db2, r2⟩
    have s2 := gocp_step db1 row
    simp only [h2] at s2
    rcases r2 with e | pid
    · simp only [processRow, h1, h2]
      exact ⟨s1.1.trans s2.1, by rw [s2.2.2.2.2.2, s1.2.2.2.2.2]⟩
    · rcases h3 : get_or_create_unit db2 row with ⟨db3, r3⟩
      have s3 := gocu_step db2 row
      simp only [h3] at s3
      rcases r3 with e | uid
      · simp only [processRow, h1, h2, h3]
        exact ⟨(s1.1.trans s2.1).trans s3.1,
          by rw [s3.2.2.2.2.2, s2.2.2.2.2.2, s1.2.2.2.2.2]⟩
      · rcases h4 : get_or_create_source db3 row with ⟨db4, r4⟩
        have s4 := gocs_step db3 row
        simp only [h4] at s4
        rcases r4 with e | sid
        · simp only [processRow, h1, h2, h3, h4]
          exact ⟨((s1.1.trans s2.1).trans s3.1).trans s4.1,
            by rw [s4.2.2.2.2.2, s3.2.2.2.2.2, s2.2.2.2.2.2, s1.2.2.2.2.2]⟩
        · simp only [processRow, h1, h2, h3, h4]
          have s5 := upsert_extends db4 row mid pid uid sid
          have f5 := upsert_frame db4 row mid pid uid sid
          exact ⟨(((s1.1.trans s2.1).trans s3.1).trans s4.1).trans s5,
            by rw [f5.2.2.2.2, s4.2.2.2.2.2, s3.2.2.2.2.2, s2.2.2.2.2.2,
              s1.2.2.2.2.2]⟩

end FEWS

namespace FEWS

/-! ## Statistics accumulation of the row loop -/

/-- Componentwise addition of statistics. -/
def statAdd (a b : SyncStats) : SyncStats :=
  { inserted := a.inserted + b.inserted
    updated := a.updated + b.updated
    skipped := a.skipped + b.skipped
    errors := a.errors + b.errors }

theorem statAdd_zero (s : SyncStats) : statAdd s zeroStats = s := by
  simp [statAdd, zeroStats]

theorem statAdd_bump (s t : SyncStats) (r : Except String Bool) :
    statAdd s (bumpStats t r) = bumpStats (statAdd s t) r := by
  rcases r with e | b
  · simp [statAdd, bumpStats, Nat.add_assoc]
  · rcases b <;> simp [statAdd, bumpStats, Nat.add_assoc]

theorem syncLoop_cons (db : DB) (s : SyncStats) (r : Row) (t : List Row) :
    syncLoop db s (r :: t) =
      syncLoop (processRow db r).1 (bumpStats s (processRow db r).2) t := rfl

theorem syncLoop_shift (rows : List Row) : ∀ (db : DB) (s : SyncStats),
    syncLoop db s rows =
      ((syncLoop db zeroStats rows).1,
        statAdd s (syncLoop db zeroStats rows).2) := by
  induction rows with
  | nil => intro db s; simp [syncLoop, statAdd_zero]
  | cons r t ih =>
    intro db s
    rw [syncLoop_cons, syncLoop_cons,
      ih (processRow db r).1 (bumpStats s (processRow db r).2),
      ih (processRow db r).1 (bumpStats zeroStats (processRow db r).2)]
    simp only [Prod.mk.injEq]
    refine ⟨trivial, ?_⟩
    rcases (processRow db r).2 with e | b
    · simp [statAdd, bumpStats, zeroStats]; omega
    · rcases b <;> (simp [statAdd, bumpStats, zeroStats]; omega)

theorem syncLoop_append (l1 l2 : List Row) : ∀ (db : DB) (s : SyncStats),
    syncLoop db s (l1 ++ l2) =
      syncLoop (syncLoop db s l1).1 (syncLoop db s l1).2 l2 := by
  induction l1 with
  | nil => intro db s; rfl
  | cons r t ih =>
    intro db s
    rw [List.cons_append, syncLoop_cons, ih, syncLoop_cons]

theorem syncLoop_partition (rows : List Row) : ∀ (db : DB) (s : SyncStats),
    ((syncLoop db s rows).2.inserted + (syncLoop db s rows).2.updated +
        (syncLoop db s rows).2.errors
      = s.inserted + s.updated + s.errors + rows.length) ∧
    (syncLoop db s rows).2.skipped = s.skipped := by
  induction rows with
  | nil => intro db s; simp [syncLoop]
  | cons r t ih =>
    intro db s
    rw [syncLoop_cons]
    obtain ⟨h1, h2⟩ := ih (processRow db r).1 (bumpStats s (processRow db r).2)
    refine ⟨?_, ?_⟩
    · rw [h1, List.length_cons]
      rcases (processRow db r).2 with e | b
      · simp [bumpStats]; omega
      · rcases b <;> (simp [bumpStats]; omega)
    · rw [h2]
      rcases (processRow db r).2 with e | b
      · simp [bumpStats]
      · rcases b <;> simp [bumpStats]

theorem syncLoop_errors_mono (rows : List Row) : ∀ (db : DB) (s : SyncStats),
    s.errors ≤ (syncLoop db s rows).2.errors := by
  induction rows with
  | nil => intro db s; exact Nat.le_refl _
  | cons r t ih =>
    intro db s
    rw [syncLoop_cons]
    refine Nat.le_trans ?_ (ih _ _)
    rcases (processRow db r).2 with e | b
    · simp [bumpStats]
    · rcases b <;> simp [bumpStats]

theorem syncLoop_extends (rows : List Row) : ∀ (db : DB) (s : SyncStats),
    Extends db (syncLoop db s rows).1 ∧
    (syncLoop db s rows).1.import_log = db.import_log := by
  induction rows with
  | nil => intro db s; exact ⟨Extends.rfl db, rfl⟩
  | cons r t ih =>
    intro db s
    rw [syncLoop_cons]
    obtain ⟨e1, l1⟩ := processRow_shape db r
    obtain ⟨e2, l2⟩ := ih (processRow db r).1 (bumpStats s (processRow db r).2)
    exact ⟨e1.trans e2, by rw [l2, l1]⟩

end FEWS

namespace FEWS

/-! ## Readiness: a second sync of a row is a pure update -/

/-- The source step of `processRow` completes without touching
`data_sources`: the value is missing/NaN, or it `int()`-converts and is
already present. -/
def SourceReady (db : DB) (row : Row) : Prop :=
  pdIsna (pyGet row "datasourceorganization") = true ∨
  ∃ n s, pyInt (pyGet row "datasourceorganization") = Except.ok n ∧
    List.find? (fun d => decide (d.fews_id = n)) db.data_sources = some s

/-- Every lookup `processRow` performs for `row` hits an existing
record: the three dimension keys resolve, the source step needs no
insert, and the resolved natural key is already in the fact table. -/
def RowReady (db : DB) (row : Row) : Prop :=
  ∃ m p u,
    List.find? (marketPred row) db.markets = some m ∧
    List.find? (productPred row) db.products = some p ∧
    List.find? (unitPred row) db.units = some u ∧
    SourceReady db row ∧
    ((db.price_observations.map natKey).any
      (keyMatchK m.id p.id u.id (rowPd row) (rowPt row))) = true

theorem obs_find_isSome_iff (mid pid uid : Nat) (pd pt : Value)
    (l : List PriceObservation) :
    ((List.find? (obsMatches mid pid uid pd pt) l).isSome = true) ↔
    ((l.map natKey).any (keyMatchK mid pid uid pd pt) = true) :=
  find?_comp_isSome_iff (keyMatchK mid pid uid pd pt) natKey l

theorem sourceReady_congr {db db' : DB} {row : Row}
    (h : db'.data_sources = db.data_sources) (hr : SourceReady db row) :
    SourceReady db' row := by
  rcases hr with h1 | ⟨n, s, hn, hf⟩
  · exact Or.inl h1
  · exact Or.inr ⟨n, s, hn, by rw [h, hf]⟩

theorem rowReady_congr {db db' : DB} {row : Row}
    (hM : db'.markets = db.markets) (hP : db'.products = db.products)
    (hU : db'.units = db.units) (hS : db'.data_sources = db.data_sources)
    (hO : db'.price_observations.map natKey = db.price_observations.map natKey)
    (h : RowReady db row) : RowReady db' row := by
  obtain ⟨m, p, u, hm, hp, hu, hsrc, hobs⟩ := h
  exact ⟨m, p, u, by rw [hM, hm], by rw [hP, hp], by rw [hU, hu],
    sourceReady_congr hS hsrc, by rw [hO]; exact hobs⟩

theorem rowReady_extend {db db' : DB} {row : Row}
    (he : Extends db db') (h : RowReady db row) : RowReady db' row := by
  obtain ⟨⟨l1, e1⟩, ⟨l2, e2⟩, ⟨l3, e3⟩, ⟨l4, e4⟩, ⟨l5, e5⟩⟩ := he
  obtain ⟨m, p, u, hm, hp, hu, hsrc, hobs⟩ := h
  refine ⟨m, p, u, ?_, ?_, ?_, ?_, ?_⟩
  · rw [e1]; exact find?_append_some _ hm
  · rw [e2]; exact find?_append_some _ hp
  · rw [e3]; exact find?_append_some _ hu
  · rcases hsrc with h1 | ⟨n, s, hn, hf⟩
    · exact Or.inl h1
    · exact Or.inr ⟨n, s, hn, by rw [e4]; exact find?_append_some _ hf⟩
  · rw [e5, List.any_append, hobs, Bool.true_or]

/-! ## An ok outcome of a row establishes readiness -/

theorem gocm_ok_found {db : DB} {row : Row} {db1 : DB} {i : Nat}
    (h : get_or_create_market db row = (db1, Except.ok i)) :
    ∃ m, List.find? (marketPred row) db1.markets = some m ∧ m.id = i := by
  rcases hf : List.find? (marketPred row) db.markets with _ | m
  · by_cases hm : marketPred row (newMarket db row)
    · rw [gocm_insert_found hf hm] at h
      obtain ⟨h1, h2⟩ := Prod.mk.injEq .. ▸ h
      subst h1
      injection h2 with h2
      refine ⟨newMarket db row, ?_, h2⟩
      show List.find? (marketPred row) (db.markets ++ [newMarket db row]) = _
      rw [find?_append_none _ hf, List.find?_cons_of_pos _ hm]
    · rw [gocm_insert_null hf (by simpa using hm)] at h
      exact absurd (congrArg Prod.snd h) (by simp)
  · rw [gocm_found hf] at h
    obtain ⟨h1, h2⟩ := Prod.mk.injEq .. ▸ h
    subst h1
    injection h2 with h2
    exact ⟨m, hf, h2⟩

theorem gocp_ok_found {db : DB} {row : Row} {db1 : DB} {i : Nat}
    (h : get_or_create_product db row = (db1, Except.ok i)) :
    ∃ p, List.find? (productPred row) db1.products = some p ∧ p.id = i := by
  rcases hf : List.find? (productPred row) db.products with _ | p
  · by_cases hp : productPred row (newProduct db row)
    · rw [gocp_insert_found hf hp] at h
      obtain ⟨h1, h2⟩ := Prod.mk.injEq .. ▸ h
      subst h1
      injection h2 with h2
      refine ⟨newProduct db row, ?_, h2⟩
      show List.find? (productPred row) (db.products ++ [newProduct db row]) = _
      rw [find?_append_none _ hf, List.find?_cons_of_pos _ hp]
    · rw [gocp_insert_null hf (by simpa using hp)] at h
      exact absurd (congrArg Prod.snd h) (by simp)
  · rw [gocp_found hf] at h
    obtain ⟨h1, h2⟩ := Prod.mk.injEq .. ▸ h
    subst h1
    injection h2 with h2
    exact ⟨p, hf, h2⟩

theorem gocu_ok_found {db : DB} {row : Row} {db1 : DB} {i : Nat}
    (h : get_or_create_unit db row = (db1, Except.ok i)) :
    ∃ u, List.find? (unitPred row) db1.units = some u ∧ u.id = i := by
  rcases hf : List.find? (unitPred row) db.units with _ | u
  · by_cases hu : unitPred row (newUnit db row)
    · rw [gocu_insert_found hf hu] at h
      obtain ⟨h1, h2⟩ := Prod.mk.injEq .. ▸ h
      subst h1
      injection h2 with h2
      refine ⟨newUnit db row, ?_, h2⟩
      show List.find? (unitPred row) (db.units ++ [newUnit db row]) = _
      rw [find?_append_none _ hf, List.find?_cons_of_pos _ hu]
    · rw [gocu_insert_null hf (by simpa using hu)] at h
      exact absurd (congrArg Prod.snd h) (by simp)
  · rw [gocu_found hf] at h
    obtain ⟨h1, h2⟩ := Prod.mk.injEq .. ▸ h
    subst h1
    injection h2 with h2
    exact ⟨u, hf, h2⟩

theorem gocs_ok_src {db : DB} {row : Row} {db1 : DB} {osid : Option Nat}
    (h : get_or_create_source db row = (db1, Except.ok osid)) :
    SourceReady db1 row := by
  rcases hna : pdIsna (pyGet row "datasourceorganization") with _ | _
  · rcases hn : pyInt (pyGet row "datasourceorganization") with e | n
    · rw [gocs_int_error hna hn] at h
      exact absurd (congrArg Prod.snd h) (by simp)
    · rcases hf : List.find? (fun s => decide (s.fews_id = n)) db.data_sources
        with _ | s
      · rw [gocs_insert hna hn hf] at h
        obtain ⟨h1, h2⟩ := Prod.mk.injEq .. ▸ h
        subst h1
        refine Or.inr ⟨n, newSource db n row, hn, ?_⟩
        show List.find? _ (db.data_sources ++ [newSource db n row]) = _
        rw [find?_append_none _ hf,
          List.find?_cons_of_pos _ (by simp [newSource])]
      · rw [gocs_found hna hn hf] at h
        obtain ⟨h1, h2⟩ := Prod.mk.injEq .. ▸ h
        subst h1
        exact Or.inr ⟨n, s, hn, hf⟩
  · exact Or.inl hna

theorem upsert_key_present {db : DB} {row : Row} (mid pid uid : Nat)
    (sid : Option Nat)
    (hpd : pdIsna (rowPd row) = false) (hpt : pdIsna (rowPt row) = false) :
    (((upsert_price_observation db row mid pid uid sid).1.price_observations.map
        natKey).any (keyMatchK mid pid uid (rowPd row) (rowPt row))) = true := by
  rcases hf : List.find? (obsMatches mid pid uid (rowPd row) (rowPt row))
      db.price_observations with _ | o
  · rw [upsert_insert hf]
    show ((db.price_observations ++ [newObs db row mid pid uid sid]).map natKey).any
      _ = true
    rw [List.map_append, List.any_append]
    have hk : natKey (newObs db row mid pid uid sid)
        = (mid, pid, uid, rowPd row, rowPt row) := rfl
    have h2 : (List.any ([newObs db row mid pid uid sid].map natKey)
        (keyMatchK mid pid uid (rowPd row) (rowPt row))) = true := by
      simp [hk, keyMatchK, sqlEq_self hpd, sqlEq_self hpt]
    rw [h2, Bool.or_true]
  · rw [upsert_update hf]
    show ((db.price_observations.map fun x =>
        if x.id = o.id then applyObsUpdate row _ x else x).map natKey).any _ = true
    rw [natKey_map_update]
    refine List.any_eq_true.mpr ⟨natKey o, List.mem_map_of_mem natKey
      (List.mem_of_find?_eq_some hf), ?_⟩
    have hs := List.find?_some hf
    exact hs

end FEWS

namespace FEWS

theorem pyInt_ok_not_na {v : Value} {n : Int} (h : pyInt v = Except.ok n) :
    pdIsna v = false := by
  cases v with
  | nanV => exact absurd h (by simp [pyInt])
  | intV m => rfl
  | strV s => rfl
  | boolV b => rfl

theorem processRow_ok_ready {db : DB} {row : Row} {b : Bool}
    (hpd : pdIsna (rowPd row) = false) (hpt : pdIsna (rowPt row) = false)
    (h : (processRow db row).2 = Except.ok b) :
    RowReady (processRow db row).1 row := by
  rcases h1 : get_or_create_market db row with ⟨db1, r1⟩
  rcases r1 with e | mid
  · simp [processRow, h1] at h
  rcases h2 : get_or_create_product db1 row with ⟨db2, r2⟩
  rcases r2 with e | pid
  · simp [processRow, h1, h2] at h
  rcases h3 : get_or_create_unit db2 row with ⟨db3, r3⟩
  rcases r3 with e | uid
  · simp [processRow, h1, h2, h3] at h
  rcases h4 : get_or_create_source db3 row with ⟨db4, r4⟩
  rcases r4 with e | sid
  · simp [processRow, h1, h2, h3, h4] at h
  have hfinal : (processRow db row).1
      = (upsert_price_observation db4 row mid pid uid sid).1 := by
    simp [processRow, h1, h2, h3, h4]
  rw [hfinal]
  obtain ⟨m, hm, hmid⟩ := gocm_ok_found h1
  obtain ⟨p, hp, hpid⟩ := gocp_ok_found h2
  obtain ⟨u, hu, huid⟩ := gocu_ok_found h3
  have hsrc : SourceReady db4 row := gocs_ok_src h4
  have s2 := gocp_step db1 row
  simp only [h2] at s2
  have s3 := gocu_step db2 row
  simp only [h3] at s3
  have s4 := gocs_step db3 row
  simp only [h4] at s4
  have f5 := upsert_frame db4 row mid pid uid sid
  refine ⟨m, p, u, ?_, ?_, ?_, ?_, ?_⟩
  · rw [f5.1, s4.2.1, s3.2.1, s2.2.1]
    exact hm
  · rw [f5.2.1, s4.2.2.1, s3.2.2.1]
    exact hp
  · rw [f5.2.2.1, s4.2.2.2.1]
    exact hu
  · exact sourceReady_congr f5.2.2.2.1 hsrc
  · rw [hmid, hpid, huid]
    exact upsert_key_present mid pid uid sid hpd hpt

theorem processRow_ready {db : DB} {row : Row} (h : RowReady db row) :
    (processRow db row).2 = Except.ok false ∧
    (processRow db row).1.markets = db.markets ∧
    (processRow db row).1.products = db.products ∧
    (processRow db row).1.units = db.units ∧
    (processRow db row).1.data_sources = db.data_sources ∧
    (processRow db row).1.import_log = db.import_log ∧
    (processRow db row).1.price_observations.map natKey
      = db.price_observations.map natKey := by
  obtain ⟨m, p, u, hm, hp, hu, hsrc, hobs⟩ := h
  have e1 := gocm_found hm
  have e2 := gocp_found hp
  have e3 := gocu_found hu
  have e4 : ∃ osid, get_or_create_source db row = (db, Except.ok osid) := by
    rcases hsrc with h1 | ⟨n, s, hn, hf⟩
    · exact ⟨none, gocs_isna h1⟩
    · exact ⟨some s.id, gocs_found (pyInt_ok_not_na hn) hn hf⟩
  obtain ⟨osid, e4⟩ := e4
  have hobs' : (List.find? (obsMatches m.id p.id u.id (rowPd row) (rowPt row))
      db.price_observations).isSome = true :=
    (obs_find_isSome_iff m.id p.id u.id (rowPd row) (rowPt row)
      db.price_observations).mpr hobs
  rcases Option.isSome_iff_exists.mp hobs' with ⟨o, hfind⟩
  have e5 := @upsert_update db row m.id p.id u.id osid o hfind
  have final : processRow db row =
      ({ db with price_observations := db.price_observations.map fun x =>
           if x.id = o.id then
             applyObsUpdate row (parseModified (pyGet row "modified")) x
           else x },
       Except.ok false) := by
    simp [processRow, e1, e2, e3, e4, e5]
  rw [final]
  exact ⟨rfl, rfl, rfl, rfl, rfl, rfl, natKey_map_update _ _ _ _⟩

theorem syncLoop_ready_run (rows : List Row) : ∀ (db : DB) (s : SyncStats),
    (∀ r ∈ rows, RowReady db r) →
    ((syncLoop db s rows).2 = { inserted := s.inserted
                                updated := s.updated + rows.length
                                skipped := s.skipped, errors := s.errors }) ∧
    (syncLoop db s rows).1.markets = db.markets ∧
    (syncLoop db s rows).1.products = db.products ∧
    (syncLoop db s rows).1.units = db.units ∧
    (syncLoop db s rows).1.data_sources = db.data_sources ∧
    (syncLoop db s rows).1.price_observations.map natKey
      = db.price_observations.map natKey := by
  induction rows with
  | nil =>
    intro db s _
    exact ⟨rfl, rfl, rfl, rfl, rfl, rfl⟩
  | cons r t ih =>
    intro db s hall
    have hr := hall r (List.mem_cons_self r t)
    obtain ⟨hok, hM, hP, hU, hS, hL, hO⟩ := processRow_ready hr
    rw [syncLoop_cons, hok]
    have hall' : ∀ r' ∈ t, RowReady (processRow db r).1 r' := fun r' hr' =>
      rowReady_congr hM hP hU hS hO (hall r' (List.mem_cons_of_mem r hr'))
    obtain ⟨i1, i2, i3, i4, i5, i6⟩ :=
      ih (processRow db r).1 (bumpStats s (Except.ok false)) hall'
    refine ⟨?_, ?_, ?_, ?_, ?_, ?_⟩
    · rw [i1]
      simp [bumpStats, List.length_cons]
      omega
    · rw [i2, hM]
    · rw [i3, hP]
    · rw [i4, hU]
    · rw [i5, hS]
    · rw [i6, hO]

theorem syncLoop_no_errors_ready (rows : List Row) : ∀ (db : DB) (s : SyncStats),
    (syncLoop db s rows).2.errors = s.errors →
    (∀ r ∈ rows, pdIsna (rowPd r) = false ∧ pdIsna (rowPt r) = false) →
    ∀ r ∈ rows, RowReady (syncLoop db s rows).1 r := by
  induction rows with
  | nil =>
    intro db s _ _ r hr
    exact absurd hr (List.not_mem_nil r)
  | cons r t ih =>
    intro db s herr hnn r' hr'
    rw [syncLoop_cons] at herr ⊢
    rcases hres : (processRow db r).2 with e | b
    · exfalso
      rw [hres] at herr
      have hmono := syncLoop_errors_mono t (processRow db r).1
        (bumpStats s (Except.error e))
      rw [herr] at hmono
      simp [bumpStats] at hmono
    · rw [hres] at herr
      have hready : RowReady (processRow db r).1 r :=
        processRow_ok_ready (hnn r (List.mem_cons_self r t)).1
          (hnn r (List.mem_cons_self r t)).2 hres
      have herr' : (syncLoop (processRow db r).1
          (bumpStats s (Except.ok b)) t).2.errors
          = (bumpStats s (Except.ok b)).errors := by
        rw [herr]
        cases b <;> simp [bumpStats]
      rcases List.mem_cons.mp hr' with heq | hmem
      · rw [heq]
        exact rowReady_extend
          (syncLoop_extends t (processRow db r).1
            (bumpStats s (Except.ok b))).1 hready
      · exact ih (processRow db r).1 (bumpStats s (Except.ok b)) herr'
          (fun x hx => hnn x (List.mem_cons_of_mem r hx)) r' hmem

end FEWS

namespace FEWS

/-! ## Concrete data for witnesses and counterexamples -/

/-- A representative API row: every natural-key field present. -/
def rowA : Row :=
  [("market_id", Value.intV 1), ("market", Value.strV "Port-au-Prince"),
   ("product", Value.strV "Rice (local)"), ("product_source", Value.strV "Local"),
   ("unit", Value.strV "kg"), ("period_date", Value.strV "2024-01-01"),
   ("price_type", Value.strV "Retail"), ("value", Value.intV 50),
   ("datasourceorganization", Value.intV 7)]

/-- A row whose `period_date` column is absent (so `row.get` yields
`None` and the stored fact key is `NULL`-dated). -/
def rowNoPd : Row :=
  [("market_id", Value.intV 2), ("market", Value.strV "Cap Haitien"),
   ("product", Value.strV "Maize"), ("product_source", Value.strV "Local"),
   ("unit", Value.strV "kg"), ("value", Value.intV 30)]

/-- A row whose `datasourceorganization` is a non-numeric string, so
`int()` raises inside `get_or_create_source`. -/
def rowBadSource : Row :=
  [("market_id", Value.intV 3), ("market", Value.strV "Gonaives"),
   ("product", Value.strV "Beans"), ("product_source", Value.strV "Local"),
   ("unit", Value.strV "kg"), ("period_date", Value.strV "2024-02-01"),
   ("datasourceorganization", Value.strV "unknown")]

/-- A row with no `datasourceorganization` column at all. -/
def rowNoSource : Row :=
  [("market_id", Value.intV 4), ("market", Value.strV "Jacmel"),
   ("product", Value.strV "Sugar"), ("product_source", Value.strV "Local"),
   ("unit", Value.strV "kg"), ("period_date", Value.strV "2024-03-01"),
   ("value", Value.intV 20)]

def mA : Market :=
  { id := 1, fews_id := Value.intV 1, fnid := Value.nanV
    name := Value.strV "Port-au-Prince", admin_1 := Value.nanV
    admin_2 := Value.nanV, country_code := Value.strV "HT"
    latitude := Value.nanV, longitude := Value.nanV }

def pA : Product :=
  { id := 1, name := Value.strV "Rice (local)", cpcv2 := Value.nanV
    cpcv2_description := Value.nanV, product_source := Value.strV "Local"
    is_staple_food := Value.boolV false }

def uA : UnitRecord :=
  { id := 1, name := Value.strV "kg", unit_type := Value.nanV
    common_unit := Value.nanV }

def sA : DataSource :=
  { id := 1, fews_id := 7, name := Value.nanV, document_name := Value.nanV }

/-- A database whose dimension tables already hold `rowA`'s records. -/
def dbFull : DB :=
  { emptyDB with
    markets := [mA], products := [pA], units := [uA]
    data_sources := [sA], next_market_id := 2, next_product_id := 2
    next_unit_id := 2, next_source_id := 2 }

/-- The database produced by syncing `rowA` once into an empty database. -/
def db1A : DB := (sync_dataframe emptyDB [rowA]).1

/-- An existing market whose stored name differs from what the API row
carries. -/
def mOld : Market :=
  { id := 1, fews_id := Value.intV 1, fnid := Value.nanV
    name := Value.strV "Old Market", admin_1 := Value.nanV
    admin_2 := Value.nanV, country_code := Value.strV "HT"
    latitude := Value.nanV, longitude := Value.nanV }

def dbC3 : DB := { emptyDB with markets := [mOld], next_market_id := 2 }

/-- An API row matching `mOld` by natural key but with a new name. -/
def rowC3 : Row :=
  [("market_id", Value.intV 1), ("market", Value.strV "New Market")]

/-- A database with one successful import whose `date_range_end` is
day 4. -/
def dbW : DB :=
  log_import emptyDB 10
    (statsDict { inserted := 5, updated := 5, skipped := 0, errors := 0 })
    (some 0) (some 4) "success" none

/-! ## Natural-key matching on non-null keys is tuple equality -/

theorem obsMatches_eq_key (mid pid uid : Nat) {pd pt : Value}
    (hpd : pdIsna pd = false) (hpt : pdIsna pt = false)
    (o : PriceObservation) :
    (obsMatches mid pid uid pd pt o = true ↔
      natKey o = (mid, pid, uid, pd, pt)) := by
  show (keyMatchK mid pid uid pd pt (natKey o) = true ↔ _)
  rcases hk : natKey o with ⟨a, b, c, d, e⟩
  simp [keyMatchK, sqlEq_eq_decide _ hpd, sqlEq_eq_decide _ hpt, Prod.ext_iff]
  tauto

/-! ## Claim theorems -/

/-- C1: for every price row and resolved dimension ids,
`upsert_price_observation` inserts a new `price_observations` record
exactly when no record with the same natural key
`(market_id, product_id, unit_id, period_date, price_type)` exists,
returning `true`; when such a record exists it updates that record in
place (same length, same ids, same natural keys) and returns `false`;
and on non-null `period_date` / `price_type` "same natural key" is
exactly equality of the key tuples. -/
theorem upsert_insert_iff_else_update (db : DB) (row : Row) (mid pid uid : Nat)
    (sid : Option Nat) :
    ((upsert_price_observation db row mid pid uid sid).2
      = !(db.price_observations.any
          (obsMatches mid pid uid (rowPd row) (rowPt row)))) ∧
    ((upsert_price_observation db row mid pid uid sid).2 = true →
      (upsert_price_observation db row mid pid uid sid).1.price_observations
        = db.price_observations ++ [newObs db row mid pid uid sid]) ∧
    ((upsert_price_observation db row mid pid uid sid).2 = false →
      ∃ o, List.find? (obsMatches mid pid uid (rowPd row) (rowPt row))
            db.price_observations = some o ∧
        (upsert_price_observation db row mid pid uid sid).1.price_observations
          = db.price_observations.map (fun x =>
              if x.id = o.id then
                applyObsUpdate row (parseModified (pyGet row "modified")) x
              else x) ∧
        (upsert_price_observation db row mid pid uid sid).1.price_observations.map
            natKey = db.price_observations.map natKey ∧
        (upsert_price_observation db row mid pid uid sid).1.price_observations.map
            PriceObservation.id = db.price_observations.map PriceObservation.id) ∧
    (∀ o : PriceObservation, pdIsna (rowPd row) = false →
      pdIsna (rowPt row) = false →
      (obsMatches mid pid uid (rowPd row) (rowPt row) o = true ↔
        natKey o = (mid, pid, uid, rowPd row, rowPt row))) := by
  refine ⟨?_, ?_, ?_, fun o hpd hpt => obsMatches_eq_key mid pid uid hpd hpt o⟩
  · rcases hf : List.find? (obsMatches mid pid uid (rowPd row) (rowPt row))
        db.price_observations with _ | o
    · rw [upsert_insert hf]
      have hany : db.price_observations.any
          (obsMatches mid pid uid (rowPd row) (rowPt row)) = false := by
        by_contra hc
        rw [Bool.not_eq_false, List.any_eq_true] at hc
        obtain ⟨x, hx, hpx⟩ := hc
        exact (List.find?_eq_none.mp hf x hx) hpx
      rw [hany]
      rfl
    · rw [upsert_update hf]
      have hany : db.price_observations.any
          (obsMatches mid pid uid (rowPd row) (rowPt row)) = true :=
        List.any_eq_true.mpr ⟨o, List.mem_of_find?_eq_some hf,
          List.find?_some hf⟩
      rw [hany]
      rfl
  · intro htrue
    rcases hf : List.find? (obsMatches mid pid uid (rowPd row) (rowPt row))
        db.price_observations with _ | o
    · rw [upsert_insert hf]
    · rw [upsert_update hf] at htrue
      exact absurd htrue (by simp)
  · intro hfalse
    rcases hf : List.find? (obsMatches mid pid uid (rowPd row) (rowPt row))
        db.price_observations with _ | o
    · rw [upsert_insert hf] at hfalse
      exact absurd hfalse (by simp)
    · rw [upsert_update hf]
      exact ⟨o, rfl, rfl, natKey_map_update _ _ _ _, id_map_update _ _ _ _⟩

/-- Witness for C1 at concrete inputs: inserting into an empty fact
table returns `true` and appends the new record; upserting the same row
again returns `false` and preserves the natural keys. -/
theorem upsert_insert_iff_else_update_witness :
    ((upsert_price_observation emptyDB rowA 1 1 1 none).2 = true) ∧
    ((upsert_price_observation emptyDB rowA 1 1 1 none).1.price_observations
      = emptyDB.price_observations ++ [newObs emptyDB rowA 1 1 1 none]) ∧
    ((upsert_price_observation db1A rowA 1 1 1 (some 1)).2 = false) ∧
    ((upsert_price_observation db1A rowA 1 1 1 (some 1)).1.price_observations.map
        natKey = db1A.price_observations.map natKey) := by
  have h0 := upsert_insert_iff_else_update emptyDB rowA 1 1 1 none
  have h1 := upsert_insert_iff_else_update db1A rowA 1 1 1 (some 1)
  refine ⟨?_, ?_, ?_, ?_⟩
  · rw [h0.1]; decide
  · exact h0.2.1 (by rw [h0.1]; decide)
  · rw [h1.1]; decide
  · obtain ⟨o, hfo, hmap, hkeys, hids⟩ := h1.2.2.1 (by rw [h1.1]; decide)
    exact hkeys

/-- C2: the incremental fetch window is bounded by the watermark: when a
fetch is attempted, it runs from the day after `get_last_sync_date` (day
0, 2005-01-01, when no successful sync is recorded) to today, and when
the computed start is after today the function returns at once with
nothing fetched and the database untouched. -/
theorem incremental_sync_window (db : DB) (today : Nat) (conn : Bool)
    (api : Nat → Nat → Except String (List Row)) :
    ((incremental_sync db today conn api).2.2 =
      if inc_sync_start db ≤ today ∧ conn = true then
        some (inc_sync_start db, today)
      else none) ∧
    (inc_sync_start db =
      match get_last_sync_date db with
      | some d => d + 1
      | none => 0) ∧
    (today < inc_sync_start db →
      incremental_sync db today conn api = (db, SyncOutcome.upToDate, none)) := by
  refine ⟨?_, rfl, ?_⟩
  · rcases Nat.lt_or_ge today (inc_sync_start db) with h1 | h1
    · have hup : incremental_sync db today conn api
          = (db, SyncOutcome.upToDate, none) := by
        simp only [incremental_sync]
        rw [if_pos h1]
      rw [hup, if_neg]
      intro hc
      exact absurd hc.1 (by omega)
    · have hnot : ¬ (inc_sync_start db > today) := by omega
      by_cases hc : conn = true
      · subst hc
        rcases hapi : api (inc_sync_start db) today with e | rows
        · simp [incremental_sync, hnot, hapi, h1]
        · by_cases hemp : rows.isEmpty <;>
            simp [incremental_sync, hnot, hapi, hemp, h1]
      · have hf : conn = false := by revert hc; cases conn <;> simp
        subst hf
        simp [incremental_sync, hnot]
  · intro hlt
    simp only [incremental_sync]
    rw [if_pos hlt]

/-- Witness for C2: with a recorded successful sync ending at day 4 the
computed start is day 5; at `today = 2` the sync returns up-to-date
without fetching, and at `today = 10` it requests exactly the window
(5, 10). -/
theorem incremental_sync_window_witness :
    incremental_sync dbW 2 true (fun _ _ => Except.ok [])
      = (dbW, SyncOutcome.upToDate, none) ∧
    (incremental_sync dbW 10 true (fun _ _ => Except.ok [])).2.2
      = some (5, 10) := by
  have h2 := (incremental_sync_window dbW 2 true (fun _ _ => Except.ok [])).2.2
    (by decide)
  have h10 := (incremental_sync_window dbW 10 true (fun _ _ => Except.ok [])).1
  refine ⟨h2, ?_⟩
  rw [h10]
  decide

end FEWS

namespace FEWS

/-- C3 counterexample: merging `rowC3` (market 1, name "New Market")
into a table holding market 1 with name "Old Market" leaves the record
entirely unchanged - the existing record's attributes are NOT updated
from the row, refuting insert-or-update semantics for dimension
tables. -/
theorem dimension_merge_no_update_counterexample :
    pyGet rowC3 "market" = Value.strV "New Market" ∧
    (get_or_create_market dbC3 rowC3).1 = dbC3 ∧
    (get_or_create_market dbC3 rowC3).1.markets.map Market.name
      = [Value.strV "Old Market"] ∧
    Value.strV "Old Market" ≠ Value.strV "New Market" := by
  refine ⟨rfl, ?_, ?_, by decide⟩ <;> decide

/-- C3 (amended): merging an API row into a dimension table uses a
natural-key lookup with get-or-create (insert-if-absent) semantics: a
row whose natural key matches an existing record returns that record's
id and leaves the table unchanged; only when no record matches is a new
record inserted. -/
theorem dimension_merge_get_or_create (db : DB) (row : Row) :
    (∀ m, List.find? (marketPred row) db.markets = some m →
      get_or_create_market db row = (db, Except.ok m.id)) ∧
    (List.find? (marketPred row) db.markets = none →
      (get_or_create_market db row).1.markets
        = db.markets ++ [newMarket db row]) ∧
    (∀ p, List.find? (productPred row) db.products = some p →
      get_or_create_product db row = (db, Except.ok p.id)) ∧
    (List.find? (productPred row) db.products = none →
      (get_or_create_product db row).1.products
        = db.products ++ [newProduct db row]) := by
  refine ⟨fun m h => gocm_found h, ?_, fun p h => gocp_found h, ?_⟩
  · intro h
    by_cases hm : marketPred row (newMarket db row)
    · rw [gocm_insert_found h hm]
    · rw [gocm_insert_null h (by simpa using hm)]
  · intro h
    by_cases hp : productPred row (newProduct db row)
    · rw [gocp_insert_found h hp]
    · rw [gocp_insert_null h (by simpa using hp)]

/-- Witness for the amended C3: a matching market is returned unchanged;
an unmatched market and an unmatched product are appended. -/
theorem dimension_merge_get_or_create_witness :
    get_or_create_market dbC3 rowC3 = (dbC3, Except.ok 1) ∧
    (get_or_create_market emptyDB rowC3).1.markets
      = [] ++ [newMarket emptyDB rowC3] ∧
    get_or_create_product dbFull rowA = (dbFull, Except.ok 1) ∧
    (get_or_create_product emptyDB rowC3).1.products
      = [] ++ [newProduct emptyDB rowC3] := by
  exact ⟨(dimension_merge_get_or_create dbC3 rowC3).1 mOld (by decide),
    (dimension_merge_get_or_create emptyDB rowC3).2.1 (by decide),
    (dimension_merge_get_or_create dbFull rowA).2.2.1 pA (by decide),
    (dimension_merge_get_or_create emptyDB rowC3).2.2.2 (by decide)⟩

/-- C4: a failed sync never advances the watermark:
`get_last_sync_date` is the `date_range_end` of the most recent
`import_log` entry with status success (`none` when there is none -
equivalently the last success in insertion order), so appending an entry
with status failed changes neither it nor the next incremental fetch
start. -/
theorem failed_import_preserves_watermark (db : DB) (rf : Nat)
    (stats : List (String × Nat)) (ds de : Option Nat)
    (em : Option String) :
    get_last_sync_date (log_import db rf stats ds de "failed" em)
      = get_last_sync_date db ∧
    inc_sync_start (log_import db rf stats ds de "failed" em)
      = inc_sync_start db ∧
    get_last_sync_date db =
      ((db.import_log.filter
          (fun e => decide (e.status = "success"))).getLast?).bind
        ImportLogEntry.date_range_end := by
  have h1 : get_last_sync_date (log_import db rf stats ds de "failed" em)
      = get_last_sync_date db := by
    simp only [get_last_sync_date, log_import, List.reverse_append,
      List.reverse_cons, List.reverse_nil, List.nil_append,
      List.singleton_append]
    rw [List.find?_cons_of_neg _ (by simp)]
  refine ⟨h1, ?_, ?_⟩
  · unfold inc_sync_start
    rw [h1]
  · rw [get_last_sync_date, reverse_find?_eq_filter_getLast]

/-- C5 counterexample: a row whose `period_date` is missing (stored as
SQL `NULL`) processes without error, yet syncing it a second time
inserts again (`inserted = 1`, not `0`) and grows the fact table,
because `period_date = NULL` never matches. -/
theorem sync_twice_null_date_counterexample :
    (sync_dataframe emptyDB [rowNoPd]).2.errors = 0 ∧
    (sync_dataframe (sync_dataframe emptyDB [rowNoPd]).1 [rowNoPd]).2.inserted
      = 1 ∧
    (1 : Nat) ≠ 0 ∧
    (sync_dataframe
      (sync_dataframe emptyDB [rowNoPd]).1 [rowNoPd]).1.price_observations.length
      = 2 := by
  refine ⟨?_, ?_, by decide, ?_⟩ <;> decide

/-- C5 (amended): syncing the same data twice is idempotent on the fact
table provided the rows' `period_date` and `price_type` are non-null:
when the first `sync_dataframe` reports no errors, the second reports
`inserted = 0` and `updated` = number of rows (and no errors), and the
list of natural keys in `price_observations` is unchanged. -/
theorem sync_dataframe_idempotent (db : DB) (rows : List Row)
    (db1 db2 : DB) (s1 s2 : SyncStats)
    (h1 : sync_dataframe db rows = (db1, s1)) (he : s1.errors = 0)
    (hnn : ∀ r ∈ rows, pdIsna (rowPd r) = false ∧ pdIsna (rowPt r) = false)
    (h2 : sync_dataframe db1 rows = (db2, s2)) :
    s2.inserted = 0 ∧ s2.updated = rows.length ∧ s2.skipped = 0 ∧
    s2.errors = 0 ∧
    db2.price_observations.map natKey = db1.price_observations.map natKey := by
  have hready : ∀ r ∈ rows, RowReady db1 r := by
    have hz : (syncLoop db zeroStats rows).2.errors = zeroStats.errors := by
      show (sync_dataframe db rows).2.errors = zeroStats.errors
      rw [h1]
      exact he
    have hall := syncLoop_no_errors_ready rows db zeroStats hz hnn
    have hdb1 : (syncLoop db zeroStats rows).1 = db1 := by
      show (sync_dataframe db rows).1 = db1
      rw [h1]
    rw [hdb1] at hall
    exact hall
  obtain ⟨r1, r2, r3, r4, r5, r6⟩ := syncLoop_ready_run rows db1 zeroStats hready
  have hdb2 : syncLoop db1 zeroStats rows = (db2, s2) := h2
  rw [hdb2] at r1 r6
  have r1' : s2 = { inserted := zeroStats.inserted
                    updated := zeroStats.updated + rows.length
                    skipped := zeroStats.skipped
                    errors := zeroStats.errors } := r1
  have r6' : db2.price_observations.map natKey
      = db1.price_observations.map natKey := r6
  subst r1'
  exact ⟨rfl, by simp [zeroStats], rfl, rfl, r6'⟩

/-- Witness for the amended C5: syncing `rowA` twice from empty reports
one insert then one update and no second-pass insert. -/
theorem sync_dataframe_idempotent_witness :
    (sync_dataframe (sync_dataframe emptyDB [rowA]).1 [rowA]).2.inserted = 0 ∧
    (sync_dataframe (sync_dataframe emptyDB [rowA]).1 [rowA]).2.updated = 1 := by
  have h := sync_dataframe_idempotent emptyDB [rowA]
    (sync_dataframe emptyDB [rowA]).1
    (sync_dataframe (sync_dataframe emptyDB [rowA]).1 [rowA]).1
    (sync_dataframe emptyDB [rowA]).2
    (sync_dataframe (sync_dataframe emptyDB [rowA]).1 [rowA]).2
    rfl (by decide) (by decide) rfl
  exact ⟨h.1, h.2.1⟩

end FEWS

namespace FEWS

/-- C6 counterexample: with every attempt timing out, `_make_request`
sleeps 10 then 20 seconds - the hand-written `(attempt + 1) * 10`
schedule of its own loop - not the library `Retry` backoff (factor 2:
2, 4 seconds) configured on the session, refuting "the retry/backoff
behaviour is library-provided, not custom". -/
theorem make_request_custom_backoff_counterexample :
    (make_request (fun _ => AttemptResult.timeout)).2.1 = [10, 20] ∧
    [library_backoff session_retry_config 0,
     library_backoff session_retry_config 1] = [2, 4] ∧
    (make_request (fun _ => AttemptResult.timeout)).2.1
      ≠ [library_backoff session_retry_config 0,
         library_backoff session_retry_config 1] := by
  refine ⟨?_, ?_, ?_⟩ <;> decide

/-- C6 (amended): `_make_request` performs at most `MAX_RETRIES` (3)
attempts of the HTTP GET, sleeping a positive (increasing, hand-written)
wait between failed attempts - `(attempt + 1) * 10` s after a timeout,
`(attempt + 1) * 5` s after another request error - returns the parsed
body of the first successful attempt, and re-raises the exception of the
final attempt when all fail; the loop and its backoff are custom code in
`_make_request`, while a separate library-provided `Retry` is mounted on
the session. -/
theorem make_request_retry_behaviour (f : Nat → AttemptResult) :
    ((make_request f).2.2 ≤ MAX_RETRIES) ∧
    (∀ b, f 0 = AttemptResult.success b →
      make_request f = (Except.ok b, [], 1)) ∧
    (∀ b, isFail (f 0) = true → f 1 = AttemptResult.success b →
      make_request f = (Except.ok b, [failWait (f 0) 0], 2)) ∧
    (∀ b, isFail (f 0) = true → isFail (f 1) = true →
      f 2 = AttemptResult.success b →
      make_request f = (Except.ok b, [failWait (f 0) 0, failWait (f 1) 1], 3)) ∧
    (isFail (f 0) = true → isFail (f 1) = true → isFail (f 2) = true →
      make_request f =
        (Except.error (excMessage (f 2)),
         [failWait (f 0) 0, failWait (f 1) 1], 3)) ∧
    (∀ (r : AttemptResult) (i : Nat), isFail r = true → 0 < failWait r i) := by
  refine ⟨?_, ?_, ?_, ?_, ?_, ?_⟩
  · rcases hf0 : f 0 with b0 | _ | _ <;>
      [skip;
       rcases hf1 : f 1 with b1 | _ | _ <;>
         [skip; rcases hf2 : f 2 with b2 | _ | _; rcases hf2 : f 2 with b2 | _ | _];
       rcases hf1 : f 1 with b1 | _ | _ <;>
         [skip; rcases hf2 : f 2 with b2 | _ | _; rcases hf2 : f 2 with b2 | _ | _]] <;>
      simp_all [make_request, makeRequestFrom, MAX_RETRIES]
  · intro b h0
    simp [make_request, makeRequestFrom, MAX_RETRIES, h0]
  · intro b h0 h1
    rcases hf0 : f 0 with b0 | _ | _ <;> rw [hf0] at h0 <;>
      simp [isFail] at h0 <;>
      simp [make_request, makeRequestFrom, MAX_RETRIES, hf0, h1, failWait]
  · intro b h0 h1 h2
    rcases hf0 : f 0 with b0 | _ | _ <;> rw [hf0] at h0 <;>
      simp [isFail] at h0 <;>
      rcases hf1 : f 1 with b1 | _ | _ <;> rw [hf1] at h1 <;>
      simp [isFail] at h1 <;>
      simp [make_request, makeRequestFrom, MAX_RETRIES, hf0, hf1, h2, failWait]
  · intro h0 h1 h2
    rcases hf0 : f 0 with b0 | _ | _ <;> rw [hf0] at h0 <;>
      simp [isFail] at h0 <;>
      rcases hf1 : f 1 with b1 | _ | _ <;> rw [hf1] at h1 <;>
      simp [isFail] at h1 <;>
      rcases hf2 : f 2 with b2 | _ | _ <;> rw [hf2] at h2 <;>
      simp [isFail] at h2 <;>
      simp [make_request, makeRequestFrom, MAX_RETRIES, hf0, hf1, hf2,
        failWait, excMessage]
  · intro r i hr
    rcases r with b | _ | _
    · simp [isFail] at hr
    · simp [failWait]
    · simp [failWait]

/-- Witness for the amended C6: a timeout then a success yields the
parsed body after one 10-second custom sleep and two attempts; three
straight timeouts re-raise after sleeps 10 and 20. -/
theorem make_request_retry_behaviour_witness :
    make_request (fun k => if k = 0 then AttemptResult.timeout
        else AttemptResult.success "body")
      = (Except.ok "body", [10], 2) ∧
    make_request (fun _ => AttemptResult.timeout)
      = (Except.error "Timeout", [10, 20], 3) ∧
    (0 : Nat) < failWait AttemptResult.timeout 0 := by
  refine ⟨?_, ?_, ?_⟩
  · exact (make_request_retry_behaviour
      (fun k => if k = 0 then AttemptResult.timeout
        else AttemptResult.success "body")).2.2.1 "body" (by decide) (by decide)
  · exact (make_request_retry_behaviour
      (fun _ => AttemptResult.timeout)).2.2.2.2.1 rfl rfl rfl
  · exact (make_request_retry_behaviour
      (fun _ => AttemptResult.timeout)).2.2.2.2.2 AttemptResult.timeout 0 rfl

end FEWS

namespace FEWS

theorem sync_dataframe_append_cons (db : DB) (pre : List Row) (r : Row)
    (post : List Row) :
    sync_dataframe db (pre ++ r :: post) =
      syncLoop (processRow (sync_dataframe db pre).1 r).1
        (bumpStats (sync_dataframe db pre).2
          (processRow (sync_dataframe db pre).1 r).2) post := by
  rw [sync_dataframe, syncLoop_append, syncLoop_cons]
  rfl

/-- C7: `sync_dataframe` has no transactional batching: a row whose
processing raises is only counted in `errors` (the exception is caught),
the loop state reached before the failing row - including partial
effects of that row - is kept and the remaining rows are processed from
it, and the fact-table keys written by earlier rows are never
removed. -/
theorem sync_row_error_isolated (db : DB) (pre post : List Row) (r : Row)
    (msg : String)
    (h : (processRow (sync_dataframe db pre).1 r).2 = Except.error msg) :
    (sync_dataframe db (pre ++ r :: post) =
      ((sync_dataframe (processRow (sync_dataframe db pre).1 r).1 post).1,
       { inserted := (sync_dataframe db pre).2.inserted +
           (sync_dataframe (processRow (sync_dataframe db pre).1 r).1
             post).2.inserted
         updated := (sync_dataframe db pre).2.updated +
           (sync_dataframe (processRow (sync_dataframe db pre).1 r).1
             post).2.updated
         skipped := (sync_dataframe db pre).2.skipped +
           (sync_dataframe (processRow (sync_dataframe db pre).1 r).1
             post).2.skipped
         errors := (sync_dataframe db pre).2.errors + 1 +
           (sync_dataframe (processRow (sync_dataframe db pre).1 r).1
             post).2.errors })) ∧
    (∃ l, (sync_dataframe (processRow (sync_dataframe db pre).1 r).1
          post).1.price_observations.map natKey
        = (processRow (sync_dataframe db pre).1 r).1.price_observations.map
            natKey ++ l) ∧
    (∃ l, (processRow (sync_dataframe db pre).1 r).1.price_observations.map
          natKey
        = (sync_dataframe db pre).1.price_observations.map natKey ++ l) := by
  refine ⟨?_, ?_, ?_⟩
  · rw [sync_dataframe_append_cons db pre r post, h]
    rw [syncLoop_shift post (processRow (sync_dataframe db pre).1 r).1
      (bumpStats (sync_dataframe db pre).2 (Except.error msg))]
    simp only [Prod.mk.injEq]
    constructor
    · rfl
    · show statAdd (bumpStats _ _) _ = _
      simp [statAdd, bumpStats, sync_dataframe]
  · exact (syncLoop_extends post
      (processRow (sync_dataframe db pre).1 r).1 zeroStats).1.2.2.2.2
  · exact (processRow_shape (sync_dataframe db pre).1 r).1.2.2.2.2

/-- Witness for C7: a row with a non-numeric source organization raises
inside `get_or_create_source`; syncing it followed by a good row counts
one error and one insert, and both rows' effects before/after the
failure are kept. -/
theorem sync_row_error_isolated_witness :
    (sync_dataframe emptyDB ([] ++ rowBadSource :: [rowA])).2.errors = 1 ∧
    (sync_dataframe emptyDB ([] ++ rowBadSource :: [rowA])).2.inserted = 1 := by
  have h := sync_row_error_isolated emptyDB [] [rowA] rowBadSource
    "ValueError: invalid literal for int()" rfl
  have h1 := h.1
  constructor
  · rw [h1]
    decide
  · rw [h1]
    decide

/-- C8: the statistics returned by `sync_dataframe` satisfy
`inserted + updated + errors` = number of rows, and `skipped` is always
`0`. -/
theorem sync_stats_partition (db : DB) (rows : List Row) :
    (sync_dataframe db rows).2.inserted + (sync_dataframe db rows).2.updated +
        (sync_dataframe db rows).2.errors = rows.length ∧
    (sync_dataframe db rows).2.skipped = 0 := by
  have h := syncLoop_partition rows db zeroStats
  constructor
  · rw [sync_dataframe, h.1]
    simp [zeroStats]
  · rw [sync_dataframe, h.2]
    rfl

/-- C9: a row whose `datasourceorganization` is missing or NaN gets
`None` from `get_or_create_source` with the whole database untouched;
the price observation is still upserted with a `NULL` `source_id` (no
error is raised by the source step), and an inserted record carries
`source_id = NULL`. -/
theorem null_source_upserts_without_error (db : DB) (row : Row)
    (h : pdIsna (pyGet row "datasourceorganization") = true) :
    (∀ d : DB, get_or_create_source d row = (d, Except.ok none)) ∧
    (∀ (d1 : DB) (mid : Nat) (d2 : DB) (pid : Nat) (d3 : DB) (uid : Nat),
      get_or_create_market db row = (d1, Except.ok mid) →
      get_or_create_product d1 row = (d2, Except.ok pid) →
      get_or_create_unit d2 row = (d3, Except.ok uid) →
      processRow db row =
        ((upsert_price_observation d3 row mid pid uid none).1,
         Except.ok (upsert_price_observation d3 row mid pid uid none).2)) ∧
    (∀ (d : DB) (mid pid uid : Nat),
      (upsert_price_observation d row mid pid uid none).2 = true →
      (upsert_price_observation d row mid pid uid none).1.price_observations
        = d.price_observations ++ [newObs d row mid pid uid none] ∧
      (newObs d row mid pid uid none).source_id = none) := by
  refine ⟨fun d => gocs_isna h, ?_, ?_⟩
  · intro d1 mid d2 pid d3 uid h1 h2 h3
    have h4 : get_or_create_source d3 row = (d3, Except.ok none) := gocs_isna h
    simp [processRow, h1, h2, h3, h4]
  · intro d mid pid uid hins
    rcases hf : List.find? (obsMatches mid pid uid (rowPd row) (rowPt row))
        d.price_observations with _ | o
    · rw [upsert_insert hf]
      exact ⟨rfl, rfl⟩
    · rw [upsert_update hf] at hins
      exact absurd hins (by simp)

/-- Witness for C9: `rowNoSource` has no `datasourceorganization`
column; the source step returns `None` touching nothing and the
inserted record has a `NULL` `source_id`. -/
theorem null_source_upserts_without_error_witness :
    get_or_create_source emptyDB rowNoSource = (emptyDB, Except.ok none) ∧
    ((upsert_price_observation emptyDB rowNoSource 1 1 1 none).1.price_observations
      = emptyDB.price_observations ++ [newObs emptyDB rowNoSource 1 1 1 none]) ∧
    (newObs emptyDB rowNoSource 1 1 1 none).source_id = none := by
  have h := null_source_upserts_without_error emptyDB rowNoSource (by decide)
  have h3 := h.2.2 emptyDB 1 1 1 (by decide)
  exact ⟨h.1 emptyDB, h3.1, h3.2⟩

/-- C10: dimension records are immutable under sync: whenever a row's
natural key matches an existing market, product, unit or data-source
record, the corresponding `get_or_create_*` returns the existing
record's id and leaves the database - hence every field of that
record - unchanged. -/
theorem dimensions_immutable_under_sync (db : DB) (row : Row) :
    (∀ m, List.find? (marketPred row) db.markets = some m →
      get_or_create_market db row = (db, Except.ok m.id)) ∧
    (∀ p, List.find? (productPred row) db.products = some p →
      get_or_create_product db row = (db, Except.ok p.id)) ∧
    (∀ u, List.find? (unitPred row) db.units = some u →
      get_or_create_unit db row = (db, Except.ok u.id)) ∧
    (∀ (n : Int) (s : DataSource),
      pyInt (pyGet row "datasourceorganization") = Except.ok n →
      List.find? (fun d => decide (d.fews_id = n)) db.data_sources = some s →
      get_or_create_source db row = (db, Except.ok (some s.id))) :=
  ⟨fun _ h => gocm_found h, fun _ h => gocp_found h, fun _ h => gocu_found h,
   fun _ _ hn hf => gocs_found (pyInt_ok_not_na hn) hn hf⟩

/-- Witness for C10: with all four dimension records of `rowA` present,
each lookup returns id 1 and the database is returned unchanged. -/
theorem dimensions_immutable_under_sync_witness :
    get_or_create_market dbFull rowA = (dbFull, Except.ok 1) ∧
    get_or_create_product dbFull rowA = (dbFull, Except.ok 1) ∧
    get_or_create_unit dbFull rowA = (dbFull, Except.ok 1) ∧
    get_or_create_source dbFull rowA = (dbFull, Except.ok (some 1)) := by
  have h := dimensions_immutable_under_sync dbFull rowA
  exact ⟨h.1 mA (by decide), h.2.1 pA (by decide), h.2.2.1 uA (by decide),
    h.2.2.2 7 sA rfl (by decide)⟩

end FEWS
